import Mathlib

/-!
# dragonfly-cli: a shallow embedding of `dragonfly-cli.go`

The program is a single Go file.  It parses four command-line flags, opens a
USB device through `gousb`, claims its interfaces and sends at most three HID
reports (motion sync, polling rate, debounce), each a literal 17-byte table
entry.

Embedding conventions
* Go `int` flag values are `Int`; no arithmetic is done on them, so no
  wrap-around is involved.
* `[]byte` is `List Nat` (every literal is below 256).
* The USB library and the process environment are an explicit oracle (`Usb`);
  every call the program makes is recorded, in order, in a trace of `Event`s.
* `log.Fatalf` / `log.Fatalln` print and call `os.Exit(1)`; `os.Exit` does not
  run deferred calls.  Deferred calls of `main` are kept on an explicit stack
  and run, last pushed first, when `main` returns.
-/

namespace Dragonfly

/-! ## Observable events and outcomes -/

/-- One observable action of the process, in the order the program performs them. -/
inductive Event where
  /-- Line written by `fmt.Println` (without the newline). -/
  | println (line : String)
  /-- Message written by `log.Fatalf` / `log.Fatalln` (without timestamp and newline). -/
  | fatal (msg : String)
  /-- Call `gousb.NewContext()`. -/
  | newContext
  /-- Call `ctx.Close()`. -/
  | closeContext
  /-- Call `ctx.OpenDeviceWithVIDPID(vid, pid)`. -/
  | openDeviceWithVIDPID (vid pid : Nat)
  /-- Call `dev.SetAutoDetach(enable)`. -/
  | setAutoDetach (enable : Bool)
  /-- Call `dev.ActiveConfigNum()`. -/
  | activeConfigNum
  /-- Call `dev.Config(num)`. -/
  | config (num : Nat)
  /-- Call `cfg.Interface(num, alt)`, which claims the interface. -/
  | claimInterface (num alt : Nat)
  /-- Call `dev.Control(rType, request, val, idx, data)`. -/
  | control (rType request val idx : Nat) (data : List Nat)
  /-- Deferred `interfaceArray[x].Close()`. -/
  | closeInterface (num : Nat)
  /-- Deferred `cfg.Close()`. -/
  | closeConfig
  /-- Deferred `dev.Close()`. -/
  | closeDevice
  deriving DecidableEq, Repr

/-- How the process ends. -/
inductive Outcome where
  /-- Function `main` returned (exit status 0). -/
  | returned
  /-- Call of `os.Exit(code)`, directly or through `log.Fatal*` (code 1). -/
  | exited (code : Nat)
  /-- Run-time panic (nil pointer dereference). -/
  | panicked
  deriving DecidableEq, Repr

/-- Result of `ctx.OpenDeviceWithVIDPID`: the pair `(device, err)`. -/
inductive OpenResult where
  /-- Result with `err != nil` (whatever the device). -/
  | error
  /-- Result `(nil, nil)`: no device matched. -/
  | notFound
  /-- Result `(device, nil)` with a device handle. -/
  | device
  deriving DecidableEq, Repr

/-- The USB layer as seen by the program: what each library call answers.
`gousb.NewContext()` and the `Close` calls return no error the program reads. -/
structure Usb where
  /-- Answer of `OpenDeviceWithVIDPID(vid, pid)`. -/
  openDev : Nat → Nat → OpenResult
  /-- Whether `dev.SetAutoDetach(true)` returns a nil error. -/
  autoDetachOk : Bool
  /-- Answer of `dev.ActiveConfigNum()`: `none` is an error. -/
  activeConfig : Option Nat
  /-- Whether `dev.Config(num)` returns a nil error. -/
  configOk : Nat → Bool
  /-- Interface numbers of `cfg.Desc.Interfaces`, in order. -/
  interfaces : List Nat
  /-- Whether `cfg.Interface(num, 0)` returns a nil error. -/
  claimOk : Nat → Bool
  /-- Answer of `dev.Control(0x21, 0x09, 0x208, 1, data)` given everything that
  happened before the call: `some n` is `(n, nil)`, `none` is an error. -/
  control : List Event → List Nat → Option Int

/-! ## Command line and program state -/

/-- The parsed command line: each flag is absent (`none`) or present with a value. -/
structure Flags where
  pr : Option Int
  db : Option Int
  pid : Option String
  ms : Option String

/-- The package-level variables of the program together with the process state. -/
structure State where
  /-- Global `interfaceArray`: numbers of the claimed interfaces. -/
  interfaceArray : List Nat
  polling_rate : Int
  product_id : String
  motion_sync : String
  debounce : Int
  /-- Global `dev`: `false` is the nil pointer. -/
  dev : Bool
  /-- Value of `flag.NFlag()`: how many flags were set on the command line. -/
  nflag : Nat
  /-- Everything done so far, oldest first. -/
  trace : List Event
  /-- Deferred calls of `main`, last deferred first. -/
  deferred : List Event

/-- Record one event. -/
def State.emit (s : State) (e : Event) : State :=
  { s with trace := s.trace ++ [e] }

/-- A `defer` statement of `main`: push the call. -/
def State.defer (s : State) (e : Event) : State :=
  { s with deferred := e :: s.deferred }

/-- Function exit of `main` (return or panic): run the deferred calls, last
deferred first.  A deferred `dev.Close()` on the nil `dev` dereferences nil
and never reaches the USB layer. -/
def State.runDeferred (s : State) : State :=
  { s with
    trace := s.trace ++ s.deferred.filter (fun e => s.dev || e != Event.closeDevice),
    deferred := [] }

/-- A statement either continues with a value and a state, or ends the process. -/
inductive Step (α : Type) where
  | cont (a : α) (s : State)
  | halt (o : Outcome) (s : State)

/-- Sequencing: nothing runs after the process has ended. -/
def Step.bind {α β : Type} (x : Step α) (f : α → State → Step β) : Step β :=
  match x with
  | .cont a s => f a s
  | .halt o s => .halt o s

/-- The state a step ends in. -/
def Step.state {α : Type} : Step α → State
  | .cont _ s => s
  | .halt _ s => s

/-- Call `log.Fatalf(msg)` / `log.Fatalln(msg)`: print, then `os.Exit(1)`. -/
def logFatal {α : Type} (msg : String) (s : State) : Step α :=
  .halt (.exited 1) (s.emit (.fatal msg))

/-! ## Validators (`is_*_valid`) -/

/-- Go `is_polling_rate_valid`. -/
def is_polling_rate_valid (s : State) : Bool :=
  if s.polling_rate = 125 ∨ s.polling_rate = 250 ∨ s.polling_rate = 500 ∨
      s.polling_rate = 1000 ∨ s.polling_rate = 2000 ∨ s.polling_rate = 4000 then true
  else false

/-- Go `is_debounce_valid`. -/
def is_debounce_valid (s : State) : Bool :=
  if s.debounce = 1 ∨ s.debounce = 2 ∨ s.debounce = 4 ∨
      s.debounce = 8 ∨ s.debounce = 15 ∨ s.debounce = 20 then true
  else false

/-- Go `is_motion_sync_valid`. -/
def is_motion_sync_valid (s : State) : Bool :=
  if s.motion_sync = "on" ∨ s.motion_sync = "off" then true else false

/-! ## Payload tables (the `switch` of each setter) -/

/-- The `switch polling_rate` of `setPollingRate`: `none` is the `default` case. -/
def pollingRateData (polling_rate : Int) : Option (List Nat) :=
  if polling_rate = 125 then
    some [0x08, 0x07, 0x00, 0x00, 0x00, 0x06, 0x08, 0x4d, 0x01, 0x54, 0x00, 0x55, 0x00, 0x00, 0x00, 0x00, 0x41]
  else if polling_rate = 250 then
    some [0x08, 0x07, 0x00, 0x00, 0x00, 0x06, 0x04, 0x51, 0x01, 0x54, 0x00, 0x55, 0x00, 0x00, 0x00, 0x00, 0x41]
  else if polling_rate = 500 then
    some [0x08, 0x07, 0x00, 0x00, 0x00, 0x06, 0x02, 0x53, 0x01, 0x54, 0x00, 0x55, 0x00, 0x00, 0x00, 0x00, 0x41]
  else if polling_rate = 1000 then
    some [0x08, 0x07, 0x00, 0x00, 0x00, 0x06, 0x01, 0x54, 0x01, 0x54, 0x00, 0x55, 0x00, 0x00, 0x00, 0x00, 0x41]
  else if polling_rate = 2000 then
    some [0x08, 0x07, 0x00, 0x00, 0x00, 0x06, 0x10, 0x45, 0x01, 0x54, 0x00, 0x55, 0x00, 0x00, 0x00, 0x00, 0x41]
  else if polling_rate = 4000 then
    some [0x08, 0x07, 0x00, 0x00, 0x00, 0x06, 0x20, 0x35, 0x01, 0x54, 0x00, 0x55, 0x00, 0x00, 0x00, 0x00, 0x41]
  else none

/-- The `switch debounce` of `setDebounce`: `none` is the `default` case. -/
def debounceData (debounce : Int) : Option (List Nat) :=
  if debounce = 1 then
    some [0x08, 0x07, 0x00, 0x00, 0xa9, 0x0a, 0x01, 0x54, 0x01, 0x54, 0x06, 0x4f, 0x00, 0x55, 0x00, 0x55, 0xea]
  else if debounce = 2 then
    some [0x08, 0x07, 0x00, 0x00, 0xa9, 0x0a, 0x02, 0x53, 0x01, 0x54, 0x06, 0x4f, 0x00, 0x55, 0x00, 0x55, 0xea]
  else if debounce = 4 then
    some [0x08, 0x07, 0x00, 0x00, 0xa9, 0x0a, 0x04, 0x51, 0x01, 0x54, 0x06, 0x4f, 0x00, 0x55, 0x00, 0x55, 0xea]
  else if debounce = 8 then
    some [0x08, 0x07, 0x00, 0x00, 0xa9, 0x0a, 0x08, 0x4d, 0x01, 0x54, 0x06, 0x4f, 0x00, 0x55, 0x00, 0x55, 0xea]
  else if debounce = 15 then
    some [0x08, 0x07, 0x00, 0x00, 0xa9, 0x0a, 0x15, 0x40, 0x01, 0x54, 0x06, 0x4f, 0x00, 0x55, 0x00, 0x55, 0xea]
  else if debounce = 20 then
    some [0x08, 0x07, 0x00, 0x00, 0xa9, 0x0a, 0x14, 0x41, 0x01, 0x54, 0x06, 0x4f, 0x00, 0x55, 0x00, 0x55, 0xea]
  else none

/-- The `switch motion_sync` of `setMotionSync`: `none` is the `default` case. -/
def motionSyncData (motion_sync : String) : Option (List Nat) :=
  if motion_sync = "on" then
    some [0x08, 0x07, 0x00, 0x00, 0xa9, 0x0a, 0x00, 0x55, 0x01, 0x54, 0x06, 0x4f, 0x00, 0x55, 0x00, 0x55, 0xea]
  else if motion_sync = "off" then
    some [0x08, 0x07, 0x00, 0x00, 0xa9, 0x0a, 0x00, 0x55, 0x00, 0x55, 0x06, 0x4f, 0x00, 0x55, 0x00, 0x55, 0xea]
  else none

/-! ## USB plumbing -/

/-- Go `sendHidReport`.  A method call on the nil `dev` dereferences it and panics. -/
def sendHidReport (env : Usb) (data : List Nat) (s : State) : Step Int :=
  if s.dev = false then .halt .panicked s
  else
    match env.control s.trace data with
    | none => logFatal "Error sending control" (s.emit (.control 0x21 0x09 0x208 1 data))
    | some response => .cont response (s.emit (.control 0x21 0x09 0x208 1 data))

/-- Go `setPollingRate`. -/
def setPollingRate (env : Usb) (s : State) : Step Unit :=
  match pollingRateData s.polling_rate with
  | none => logFatal ("Unexpected polling rate: " ++ toString s.polling_rate) s
  | some data =>
    (sendHidReport env data s).bind fun response s =>
      if response = 17 then
        .cont () (s.emit (.println ("Polling rate set to " ++ toString s.polling_rate)))
      else .cont () s

/-- Go `setDebounce`. -/
def setDebounce (env : Usb) (s : State) : Step Unit :=
  match debounceData s.debounce with
  | none => logFatal ("Unexpected debounce setting: " ++ toString s.debounce) s
  | some data =>
    (sendHidReport env data s).bind fun response s =>
      if response = 17 then
        .cont () (s.emit (.println ("Debounce set to " ++ toString s.debounce)))
      else .cont () s

/-- Go `setMotionSync`.  `fmt.Println` and `log.Fatalln` put a blank between
operands, so the blank that ends the literal is doubled. -/
def setMotionSync (env : Usb) (s : State) : Step Unit :=
  match motionSyncData s.motion_sync with
  | none => logFatal ("Unexpected MotionSync keyword  " ++ s.motion_sync) s
  | some data =>
    (sendHidReport env data s).bind fun response s =>
      if response = 17 then
        .cont () (s.emit (.println ("Motion sync has been turned  " ++ s.motion_sync)))
      else .cont () s

/-! ## `strconv.ParseUint(s, 16, 16)` and `%x` (Go standard library) -/

/-- The loop of Go `strconv.ParseUint` (standard library) for an explicit base
between 2 and 36: no prefix, no underscores, no sign.  `none` is any error
(syntax or range).  `cutoff` is `maxUint64 / base + 1`.  The loop reads bytes;
a character outside ASCII is rejected here as its bytes are there. -/
def parseUintLoop (base maxVal cutoff : Nat) : List Char → Nat → Option Nat
  | [], n => some n
  | ch :: rest, n =>
    let c := ch.toNat
    let lower := c ||| 0x20
    let digit : Option Nat :=
      if 0x30 ≤ c ∧ c ≤ 0x39 then some (c - 0x30)
      else if 0x61 ≤ lower ∧ lower ≤ 0x7a then some (lower - 0x61 + 10)
      else none
    match digit with
    | none => none
    | some d =>
      if d ≥ base then none
      else if n ≥ cutoff then none
      else if n * base + d > maxVal then none
      else parseUintLoop base maxVal cutoff rest (n * base + d)

/-- The call `strconv.ParseUint(s, 16, 16)`: `none` when `err != nil`. -/
def parseUint16 (s : String) : Option Nat :=
  if s = "" then none
  else parseUintLoop 16 (2 ^ 16 - 1) (2 ^ 60) s.toList 0

/-- One byte in lower-case hexadecimal, two digits. -/
def hexByte (b : Nat) : String :=
  String.mk [(Nat.digitChar (b / 16)), (Nat.digitChar (b % 16))]

/-- Go `%x` applied to a string: the bytes of the string in hexadecimal. -/
def hexOfString (s : String) : String :=
  String.join ((s.toList.flatMap String.utf8EncodeChar).map fun b => hexByte b.toNat)

/-! ## Session set-up -/

/-- Go `openDevice`.  Its deferred `ctx.Close()` runs when it returns, not when
`log.Fatalf` exits the process. -/
def openDevice (env : Usb) (s : State) : Step Unit :=
  let s := s.emit .newContext
  match parseUint16 s.product_id with
  | none => logFatal "Couldn't convert Product ID to int" s
  | some product_id_int =>
    let s := s.emit (.openDeviceWithVIDPID 0x3554 product_id_int)
    match env.openDev 0x3554 product_id_int with
    | .error =>
      logFatal ("Couldn't open device with VID 3554 and PID " ++ hexOfString s.product_id) s
    | .notFound => .cont () ({ s with dev := false }.emit .closeContext)
    | .device => .cont () ({ s with dev := true }.emit .closeContext)

/-- Go `getActiveConfig`; the result stands for the `*gousb.Config`. -/
def getActiveConfig (env : Usb) (s : State) : Step Nat :=
  if s.dev = false then .halt .panicked s
  else
    let s := s.emit .activeConfigNum
    match env.activeConfig with
    | none => logFatal "Couldn't get active config num" s
    | some cfgNum =>
      let s := s.emit (.config cfgNum)
      if env.configOk cfgNum then .cont cfgNum s
      else logFatal "Couldn't get config" s

/-- Go `claimInterfacesForConfig`: the loop over `cfg.Desc.Interfaces`, given
the descriptors still to visit. -/
def claimInterfacesForConfig (env : Usb) : List Nat → State → Step Unit
  | [], s => .cont () s
  | num :: rest, s =>
    let s := s.emit (.claimInterface num 0)
    if env.claimOk num then
      claimInterfacesForConfig env rest { s with interfaceArray := s.interfaceArray ++ [num] }
    else logFatal "Failed to obtain interface" s

/-- The loop `for x := range interfaceArray { defer interfaceArray[x].Close() }`. -/
def deferInterfaceCloses : List Nat → State → State
  | [], s => s
  | num :: rest, s => deferInterfaceCloses rest (s.defer (.closeInterface num))

/-! ## `init` and `main` -/

/-- Go `flag.NFlag()`: the number of flags that were set. -/
def NFlag (f : Flags) : Nat :=
  (if f.pr.isSome then 1 else 0) + (if f.db.isSome then 1 else 0) +
    (if f.pid.isSome then 1 else 0) + (if f.ms.isSome then 1 else 0)

/-- Go `init`: the flag variables after `flag.Parse()` (an absent flag keeps its
default), and the default product ID. -/
def init (f : Flags) : State :=
  let product_id := f.pid.getD ""
  { interfaceArray := []
    polling_rate := f.pr.getD 0
    debounce := f.db.getD 0
    product_id := if product_id = "" then "f505" else product_id
    motion_sync := f.ms.getD ""
    dev := false
    nflag := NFlag f
    trace := []
    deferred := [] }

/-- The three setting blocks that end Go `main`: motion sync, polling rate,
debounce, each validated, then set or warned about. -/
def settingBlocks (env : Usb) (s : State) : Step Unit :=
    (if is_motion_sync_valid s then setMotionSync env s
     else if s.motion_sync ≠ "" then
       .cont () (s.emit (.println "Invalid motion sync setting received, ignoring..."))
     else .cont () s).bind fun _ s =>
    (if is_polling_rate_valid s then setPollingRate env s
     else if s.polling_rate ≠ 0 then
       .cont () (s.emit (.println "Invalid polling rate setting received, ignoring..."))
     else .cont () s).bind fun _ s =>
    (if is_debounce_valid s then setDebounce env s
     else if s.debounce ≠ 0 then
       .cont () (s.emit (.println "Invalid debounce setting received, ignoring..."))
     else .cont () s)

/-- The statements of Go `main`, in order: the flag check and the session
set-up, then the three setting blocks.  Calling `SetAutoDetach` on the nil
`dev` dereferences it and panics. -/
def mainBody (env : Usb) (s : State) : Step Unit :=
  if s.nflag > 1 ∧ s.product_id = "f505" then
    .halt (.exited 0) (s.emit (.println "Changing more than 1 setting at one go is not supported"))
  else
    (openDevice env s).bind fun _ s =>
    let s := s.defer .closeDevice
    if s.dev = false then .halt .panicked s
    else
    let s := s.emit (.setAutoDetach true)
    if env.autoDetachOk = false then logFatal "Couldn't set auto detach on" s
    else
    (getActiveConfig env s).bind fun _cfg s =>
    let s := s.defer .closeConfig
    (claimInterfacesForConfig env env.interfaces s).bind fun _ s =>
    let s := deferInterfaceCloses s.interfaceArray s
    settingBlocks env s

/-- Go `main`: its statements, then the deferred calls.  They run when `main`
returns and when it panics, not when `os.Exit` ends the process. -/
def main (env : Usb) (s : State) : Step Unit :=
  match mainBody env s with
  | .cont _ s => .cont () s.runDeferred
  | .halt .panicked s => .halt .panicked s.runDeferred
  | .halt o s => .halt o s

/-- What one invocation does and how it ends. -/
structure Run where
  trace : List Event
  outcome : Outcome
  deriving DecidableEq, Repr

/-- One invocation of the program: `init`, then `main`. -/
def run (f : Flags) (env : Usb) : Run :=
  match main env (init f) with
  | .cont _ s => { trace := s.trace, outcome := .returned }
  | .halt o s => { trace := s.trace, outcome := o }

/-- The data of a control transfer, for any other event `none`. -/
def Event.transferData : Event → Option (List Nat)
  | .control _ _ _ _ data => some data
  | _ => none

/-- The line of a `fmt.Println`, for any other event `none`. -/
def Event.printedLine : Event → Option String
  | .println line => some line
  | _ => none

/-- The data of the control transfers in a trace, in order. -/
def transfers (t : List Event) : List (List Nat) :=
  t.filterMap Event.transferData

/-- The lines written to standard output in a trace, in order. -/
def printed (t : List Event) : List String :=
  t.filterMap Event.printedLine

/-- A USB layer in which every call succeeds and every transfer reports `n` bytes. -/
def usbAllOk (interfaces : List Nat) (n : Int) : Usb where
  openDev := fun _ _ => .device
  autoDetachOk := true
  activeConfig := some 1
  configOk := fun _ => true
  interfaces := interfaces
  claimOk := fun _ => true
  control := fun _ _ => some n

/-- A state as `init` leaves it for the given setting values, with the device open. -/
def stateWith (polling_rate debounce : Int) (motion_sync : String) : State where
  interfaceArray := []
  polling_rate := polling_rate
  product_id := "f505"
  motion_sync := motion_sync
  debounce := debounce
  dev := true
  nflag := 1
  trace := []
  deferred := []

/-! ## The payload layouts as the specification words them -/

/-- Polling-rate layout of the specification:
`08 07 00 00 00 06 <rate-code> <checksum> 01 54 00 55 00 00 00 00 41`. -/
def specPollingRatePayload (code cks : Nat) : List Nat :=
  [0x08, 0x07, 0x00, 0x00, 0x00, 0x06, code, cks, 0x01, 0x54, 0x00, 0x55, 0x00, 0x00, 0x00, 0x00, 0x41]

/-- Debounce layout of the specification:
`08 07 00 00 a9 0a <db-code> <checksum> 01 54 06 4f 00 55 00 55 ea`. -/
def specDebouncePayload (code cks : Nat) : List Nat :=
  [0x08, 0x07, 0x00, 0x00, 0xa9, 0x0a, code, cks, 0x01, 0x54, 0x06, 0x4f, 0x00, 0x55, 0x00, 0x55, 0xea]

/-- Motion-sync layout of the specification:
`08 07 00 00 a9 0a 00 55 <on-byte> <on-checksum> 06 4f 00 55 00 55 ea`. -/
def specMotionSyncPayload (onByte cks : Nat) : List Nat :=
  [0x08, 0x07, 0x00, 0x00, 0xa9, 0x0a, 0x00, 0x55, onByte, cks, 0x06, 0x4f, 0x00, 0x55, 0x00, 0x55, 0xea]

/-- The (value, rate-code, checksum) rows of the specification's polling-rate table. -/
def specPollingRateTable : List (Int × Nat × Nat) :=
  [(125, 0x07, 0x4d), (250, 0x04, 0x51), (500, 0x02, 0x53),
   (1000, 0x01, 0x54), (2000, 0x10, 0x45), (4000, 0x20, 0x35)]

/-- The (value, db-code, checksum) rows of the specification's debounce table. -/
def specDebounceTable : List (Int × Nat × Nat) :=
  [(1, 0x01, 0x54), (2, 0x02, 0x53), (4, 0x04, 0x51),
   (8, 0x08, 0x4d), (15, 0x15, 0x40), (20, 0x14, 0x41)]

/-- The (value, on-byte, on-checksum) rows of the specification's motion-sync table. -/
def specMotionSyncTable : List (String × Nat × Nat) :=
  [("on", 0x01, 0x54), ("off", 0x00, 0x55)]

/-! ## Reference shapes of a setter call -/

/-- What a setter does once its `switch` has chosen `data`: one control
transfer, fatal on error, and the success line `msg` when it reports 17 bytes. -/
def sendAndReport (env : Usb) (data : List Nat) (msg : String) (s : State) : Step Unit :=
  match env.control s.trace data with
  | none =>
    .halt (.exited 1)
      { s with trace := s.trace ++ [.control 0x21 0x09 0x208 1 data, .fatal "Error sending control"] }
  | some n =>
    .cont ()
      { s with trace := s.trace ++
          .control 0x21 0x09 0x208 1 data :: (if n = 17 then [.println msg] else []) }

/-! ## Vocabulary for statements about `main` -/

/-- The three kinds of setting, in the order `main` evaluates them. -/
inductive Kind where
  | motionSync
  | pollingRate
  | debounce
  deriving DecidableEq, Repr

/-- The table entry the kind's setter selects for the current flag value. -/
def Kind.payload (k : Kind) (s : State) : Option (List Nat) :=
  match k with
  | .motionSync => motionSyncData s.motion_sync
  | .pollingRate => pollingRateData s.polling_rate
  | .debounce => debounceData s.debounce

/-- The kind's validator. -/
def Kind.isValid (k : Kind) (s : State) : Bool :=
  match k with
  | .motionSync => is_motion_sync_valid s
  | .pollingRate => is_polling_rate_valid s
  | .debounce => is_debounce_valid s

/-- The flag value is the flag's default: `""` for `-ms`, `0` for `-pr` and `-db`. -/
def Kind.isDefault (k : Kind) (s : State) : Bool :=
  match k with
  | .motionSync => decide (s.motion_sync = "")
  | .pollingRate => decide (s.polling_rate = 0)
  | .debounce => decide (s.debounce = 0)

/-- The warning `main` prints for a value that is neither valid nor the default. -/
def Kind.warning : Kind → String
  | .motionSync => "Invalid motion sync setting received, ignoring..."
  | .pollingRate => "Invalid polling rate setting received, ignoring..."
  | .debounce => "Invalid debounce setting received, ignoring..."

/-- The success line the kind's setter prints. -/
def Kind.success (k : Kind) (s : State) : String :=
  match k with
  | .motionSync => "Motion sync has been turned  " ++ s.motion_sync
  | .pollingRate => "Polling rate set to " ++ toString s.polling_rate
  | .debounce => "Debounce set to " ++ toString s.debounce

/-- The message of the check on the number of flags. -/
def tooManyFlagsMessage : String := "Changing more than 1 setting at one go is not supported"

/-- Session set-up succeeds: the flag check lets the run through, the product
ID parses to `pid`, the device opens, auto-detach is set, the active
configuration `cfg` opens and every interface is claimed. -/
def SetupOk (env : Usb) (f : Flags) (pid cfg : Nat) : Prop :=
  ¬ (NFlag f > 1 ∧ (init f).product_id = "f505") ∧
  parseUint16 (init f).product_id = some pid ∧
  env.openDev 0x3554 pid = .device ∧
  env.autoDetachOk = true ∧
  env.activeConfig = some cfg ∧
  env.configOk cfg = true ∧
  ∀ i ∈ env.interfaces, env.claimOk i = true

/-- The events of a successful session set-up. -/
def setupTrace (env : Usb) (pid cfg : Nat) : List Event :=
  [.newContext, .openDeviceWithVIDPID 0x3554 pid, .closeContext, .setAutoDetach true,
    .activeConfigNum, .config cfg] ++ env.interfaces.map fun n => .claimInterface n 0

/-- The deferred calls after a successful session set-up, last deferred first. -/
def cleanupTrace (env : Usb) : List Event :=
  env.interfaces.reverse.map Event.closeInterface ++ [.closeConfig, .closeDevice]

/-- The state of `main` after a successful session set-up. -/
def readyState (env : Usb) (f : Flags) (pid cfg : Nat) : State :=
  { init f with
    dev := true
    interfaceArray := env.interfaces
    trace := setupTrace env pid cfg
    deferred := cleanupTrace env }

/-- One of the three setting blocks of `main`, by what the table holds for the
flag value: send and report, warn, or do nothing. -/
def kindBlock (env : Usb) (k : Kind) (s : State) : Step Unit :=
  match k.payload s with
  | some data => sendAndReport env data (k.success s) s
  | none => if k.isDefault s then .cont () s else .cont () (s.emit (.println k.warning))

/-- The three setting blocks of `main` in sequence. -/
def applySettings (env : Usb) (s : State) : Step Unit :=
  (kindBlock env .motionSync s).bind fun _ s =>
  (kindBlock env .pollingRate s).bind fun _ s =>
  kindBlock env .debounce s

/-- The events of one setting block that runs to its end, when the control
transfer (if any) reports `n` bytes. -/
def Kind.segment (k : Kind) (s : State) (n : Int) : List Event :=
  match k.payload s with
  | some data => .control 0x21 0x09 0x208 1 data :: (if n = 17 then [.println (k.success s)] else [])
  | none => if k.isDefault s then [] else [.println k.warning]

/-- How many of the setting flags `-pr`, `-db`, `-ms` are on the command line. -/
def settingFlagsSupplied (f : Flags) : Nat :=
  (if f.pr.isSome then 1 else 0) + (if f.db.isSome then 1 else 0) +
    (if f.ms.isSome then 1 else 0)

instance (env : Usb) (f : Flags) (pid cfg : Nat) : Decidable (SetupOk env f pid cfg) := by
  unfold SetupOk
  infer_instance

/-- A USB layer in which set-up succeeds and every control transfer fails. -/
def usbControlFails (interfaces : List Nat) : Usb where
  openDev := fun _ _ => .device
  autoDetachOk := true
  activeConfig := some 1
  configOk := fun _ => true
  interfaces := interfaces
  claimOk := fun _ => true
  control := fun _ _ => none

/-- Every transfer and every printed line of `t` is accounted for by one of the
three setting blocks, for the flag values in `s`: a transfer carries the table
entry of a kind, a line is the warning of a kind whose value is neither in the
table nor the default, or the success line of a kind whose value is in the table. -/
def SettingsOnly (s : State) (t : List Event) : Prop :=
  (∀ d ∈ transfers t, ∃ k : Kind, k.payload s = some d) ∧
  (∀ line ∈ printed t, ∃ k : Kind,
    (line = k.warning ∧ k.payload s = none ∧ k.isDefault s = false) ∨
    (line = k.success s ∧ (k.payload s).isSome))

/-- The setter of a kind. -/
def Kind.setter : Kind → Usb → State → Step Unit
  | .motionSync => setMotionSync
  | .pollingRate => setPollingRate
  | .debounce => setDebounce

/-- The command line with no flag at all. -/
def noFlags : Flags := { pr := none, db := none, pid := none, ms := none }

/-- A USB layer in which no device matches: `OpenDeviceWithVIDPID` returns a nil
device and a nil error, the library's documented answer for that case. -/
def usbNoDevice : Usb where
  openDev := fun _ _ => .notFound
  autoDetachOk := true
  activeConfig := some 1
  configOk := fun _ => true
  interfaces := [0]
  claimOk := fun _ => true
  control := fun _ _ => some 17

/-- A USB layer in which the device opens and `SetAutoDetach` fails. -/
def usbAutoDetachFails : Usb where
  openDev := fun _ _ => .device
  autoDetachOk := false
  activeConfig := some 1
  configOk := fun _ => true
  interfaces := [0]
  claimOk := fun _ => true
  control := fun _ _ => some 17

/-- A USB layer in which the device opens and `ActiveConfigNum` fails. -/
def usbActiveConfigFails : Usb where
  openDev := fun _ _ => .device
  autoDetachOk := true
  activeConfig := none
  configOk := fun _ => true
  interfaces := [0]
  claimOk := fun _ => true
  control := fun _ _ => some 17

/-- A USB layer with interfaces 0 and 1 in which claiming interface 1 fails. -/
def usbSecondClaimFails : Usb where
  openDev := fun _ _ => .device
  autoDetachOk := true
  activeConfig := some 1
  configOk := fun _ => true
  interfaces := [0, 1]
  claimOk := fun num => decide (num = 0)
  control := fun _ _ => some 17

/-- The release call that gives back what an event acquired: the device handle,
the configuration, a claimed interface. -/
def Event.releaseOf : Event → Option Event
  | .openDeviceWithVIDPID _ _ => some .closeDevice
  | .config _ => some .closeConfig
  | .claimInterface num _ => some (.closeInterface num)
  | _ => none

/-- The event is the release of an interface, of the configuration or of the device. -/
def Event.isRelease : Event → Bool
  | .closeInterface _ => true
  | .closeConfig => true
  | .closeDevice => true
  | _ => false

/-- The releases a trace owes, in the order of the acquisitions. -/
def owedReleases (t : List Event) : List Event :=
  t.filterMap Event.releaseOf

/-- The releases a trace performs, in order. -/
def releases (t : List Event) : List Event :=
  t.filter Event.isRelease

/-- The event is one a setting block can produce: a control transfer, a printed
line, or the fatal message of `sendHidReport`. -/
def Event.isSettingEvent : Event → Bool
  | .control _ _ _ _ _ => true
  | .println _ => true
  | .fatal msg => decide (msg = "Error sending control")
  | _ => false

/-- A hexadecimal digit: `0`-`9`, `a`-`f` or `A`-`F`. -/
def isHexDigit (c : Char) : Bool :=
  decide ((0x30 ≤ c.toNat ∧ c.toNat ≤ 0x39) ∨ (0x61 ≤ c.toNat ∧ c.toNat ≤ 0x66) ∨
    (0x41 ≤ c.toNat ∧ c.toNat ≤ 0x46))

/-- The value of a hexadecimal digit. -/
def hexDigitValue (c : Char) : Nat :=
  if c.toNat ≤ 0x39 then c.toNat - 0x30
  else if 0x61 ≤ c.toNat then c.toNat - 0x61 + 10
  else c.toNat - 0x41 + 10

/-- The number a string of hexadecimal digits denotes, continuing from `n`. -/
def hexValueFrom (n : Nat) (l : List Char) : Nat :=
  l.foldl (fun acc c => acc * 16 + hexDigitValue c) n

/-- The number a string of hexadecimal digits denotes. -/
def hexValue (l : List Char) : Nat := hexValueFrom 0 l

/-- A product ID the program accepts, in the words of the specification: a
non-empty string of hexadecimal digits (no sign, no prefix, no separator)
whose value fits in 16 bits. -/
def ValidHexId (s : String) : Prop :=
  s ≠ "" ∧ (∀ c ∈ s.toList, isHexDigit c = true) ∧ hexValue s.toList < 2 ^ 16

instance (s : String) : Decidable (ValidHexId s) := by
  unfold ValidHexId
  infer_instance

/-- The digit the loop of `strconv.ParseUint` reads from the byte `c` in base
16: `none` where the loop reports a syntax error. -/
def goDigit16 (c : Nat) : Option Nat :=
  if 0x30 ≤ c ∧ c ≤ 0x39 then some (c - 0x30)
  else if 0x61 ≤ (c ||| 0x20) ∧ (c ||| 0x20) ≤ 0x7a then
    (if (c ||| 0x20) - 0x61 + 10 ≥ 16 then none else some ((c ||| 0x20) - 0x61 + 10))
  else none

/-- A setting: a kind together with a flag value. -/
inductive Setting where
  | motionSync (v : String)
  | pollingRate (v : Int)
  | debounce (v : Int)
  deriving DecidableEq, Repr

/-- The table entry the setter of the setting's kind selects for its value. -/
def Setting.payload : Setting → Option (List Nat)
  | .motionSync v => motionSyncData v
  | .pollingRate v => pollingRateData v
  | .debounce v => debounceData v

/-- The kind of a setting. -/
def Setting.kind : Setting → Kind
  | .motionSync _ => .motionSync
  | .pollingRate _ => .pollingRate
  | .debounce _ => .debounce

/-- The settings with a `case` in a setter's `switch`: 2 motion-sync values,
6 polling rates, 6 debounce values. -/
def supportedSettings : List Setting :=
  [.motionSync "on", .motionSync "off",
   .pollingRate 125, .pollingRate 250, .pollingRate 500, .pollingRate 1000, .pollingRate 2000,
   .pollingRate 4000,
   .debounce 1, .debounce 2, .debounce 4, .debounce 8, .debounce 15, .debounce 20]

/-- The message of a `log.Fatal*` call, for any other event `none`. -/
def Event.fatalMessage : Event → Option String
  | .fatal msg => some msg
  | _ => none

/-- The messages logged by `log.Fatal*` in a trace, in order. -/
def fatals (t : List Event) : List String :=
  t.filterMap Event.fatalMessage

/-- The message of the `default` case of the kind's setter (`log.Fatalln` puts a
blank between its operands). -/
def Kind.unexpected (k : Kind) (s : State) : String :=
  match k with
  | .motionSync => "Unexpected MotionSync keyword  " ++ s.motion_sync
  | .pollingRate => "Unexpected polling rate: " ++ toString s.polling_rate
  | .debounce => "Unexpected debounce setting: " ++ toString s.debounce

/-- The fatal messages outside the setters' `default` cases: those of
`openDevice`, `main`, `getActiveConfig`, `claimInterfacesForConfig` and
`sendHidReport`. -/
def sessionFatalMessages (s : State) : List String :=
  ["Couldn't convert Product ID to int",
   "Couldn't open device with VID 3554 and PID " ++ hexOfString s.product_id,
   "Couldn't set auto detach on",
   "Couldn't get active config num",
   "Couldn't get config",
   "Failed to obtain interface",
   "Error sending control"]

/-- The first character of a message. -/
def firstChar (m : String) : Option Char := m.data.head?

/-! ## Basic facts about steps and traces -/

@[simp] theorem transfers_nil : transfers [] = [] := rfl

@[simp] theorem transfers_append (a b : List Event) :
    transfers (a ++ b) = transfers a ++ transfers b := by
  simp [transfers]

@[simp] theorem printed_nil : printed [] = [] := rfl

@[simp] theorem printed_append (a b : List Event) :
    printed (a ++ b) = printed a ++ printed b := by
  simp [printed]

@[simp] theorem transfers_cons (e : Event) (t : List Event) :
    transfers (e :: t) = e.transferData.toList ++ transfers t := by
  cases h : e.transferData <;> simp [transfers, List.filterMap_cons, h]

@[simp] theorem printed_cons (e : Event) (t : List Event) :
    printed (e :: t) = e.printedLine.toList ++ printed t := by
  cases h : e.printedLine <;> simp [printed, List.filterMap_cons, h]

theorem sendHidReport_bind (env : Usb) (data : List Nat) (msg : State → String) (s : State)
    (hd : s.dev = true) :
    ((sendHidReport env data s).bind fun response s =>
      if response = 17 then Step.cont () (s.emit (.println (msg s))) else Step.cont () s)
      = sendAndReport env data (msg (s.emit (.control 0x21 0x09 0x208 1 data))) s := by
  unfold sendHidReport sendAndReport
  cases h : env.control s.trace data with
  | none => simp [hd, Step.bind, logFatal, State.emit]
  | some n =>
    by_cases hn : n = 17 <;> simp [hd, Step.bind, State.emit, hn]

theorem setPollingRate_eq (env : Usb) (s : State) (data : List Nat)
    (h : pollingRateData s.polling_rate = some data) (hd : s.dev = true) :
    setPollingRate env s
      = sendAndReport env data ("Polling rate set to " ++ toString s.polling_rate) s := by
  unfold setPollingRate
  rw [h]
  exact sendHidReport_bind env data (fun s => "Polling rate set to " ++ toString s.polling_rate) s hd

theorem setDebounce_eq (env : Usb) (s : State) (data : List Nat)
    (h : debounceData s.debounce = some data) (hd : s.dev = true) :
    setDebounce env s
      = sendAndReport env data ("Debounce set to " ++ toString s.debounce) s := by
  unfold setDebounce
  rw [h]
  exact sendHidReport_bind env data (fun s => "Debounce set to " ++ toString s.debounce) s hd

theorem setMotionSync_eq (env : Usb) (s : State) (data : List Nat)
    (h : motionSyncData s.motion_sync = some data) (hd : s.dev = true) :
    setMotionSync env s
      = sendAndReport env data ("Motion sync has been turned  " ++ s.motion_sync) s := by
  unfold setMotionSync
  rw [h]
  exact sendHidReport_bind env data (fun s => "Motion sync has been turned  " ++ s.motion_sync) s hd

theorem transfers_sendAndReport (env : Usb) (data : List Nat) (msg : String) (s : State) :
    transfers (sendAndReport env data msg s).state.trace = transfers s.trace ++ [data] := by
  unfold sendAndReport
  cases h : env.control s.trace data with
  | none => simp [Step.state, Event.transferData]
  | some n => by_cases hn : n = 17 <;> simp [Step.state, Event.transferData, hn]

/-! ## Validators against tables, and the blocks of `main` -/

theorem isValid_eq_isSome (k : Kind) (s : State) : k.isValid s = (k.payload s).isSome := by
  cases k
  · simp only [Kind.isValid, Kind.payload, is_motion_sync_valid, motionSyncData]
    by_cases h1 : s.motion_sync = "on"
    · simp [h1]
    · by_cases h2 : s.motion_sync = "off" <;> simp [h1, h2]
  · simp only [Kind.isValid, Kind.payload, is_polling_rate_valid, pollingRateData]
    split_ifs <;> simp_all
  · simp only [Kind.isValid, Kind.payload, is_debounce_valid, debounceData]
    split_ifs <;> simp_all

theorem motionSync_block (env : Usb) (s : State) (hd : s.dev = true) :
    (if is_motion_sync_valid s then setMotionSync env s
     else if s.motion_sync ≠ "" then
       Step.cont () (s.emit (.println "Invalid motion sync setting received, ignoring..."))
     else Step.cont () s) = kindBlock env .motionSync s := by
  have hv := isValid_eq_isSome .motionSync s
  simp only [Kind.isValid, Kind.payload] at hv
  unfold kindBlock
  cases h : motionSyncData s.motion_sync with
  | none =>
    simp [hv, h, Kind.payload, Kind.isDefault, Kind.warning]
  | some data =>
    simp only [hv, h, Kind.payload, Option.isSome_some, if_true]
    exact setMotionSync_eq env s data h hd

theorem pollingRate_block (env : Usb) (s : State) (hd : s.dev = true) :
    (if is_polling_rate_valid s then setPollingRate env s
     else if s.polling_rate ≠ 0 then
       Step.cont () (s.emit (.println "Invalid polling rate setting received, ignoring..."))
     else Step.cont () s) = kindBlock env .pollingRate s := by
  have hv := isValid_eq_isSome .pollingRate s
  simp only [Kind.isValid, Kind.payload] at hv
  unfold kindBlock
  cases h : pollingRateData s.polling_rate with
  | none =>
    simp [hv, h, Kind.payload, Kind.isDefault, Kind.warning]
  | some data =>
    simp only [hv, h, Kind.payload, Option.isSome_some, if_true]
    exact setPollingRate_eq env s data h hd

theorem debounce_block (env : Usb) (s : State) (hd : s.dev = true) :
    (if is_debounce_valid s then setDebounce env s
     else if s.debounce ≠ 0 then
       Step.cont () (s.emit (.println "Invalid debounce setting received, ignoring..."))
     else Step.cont () s) = kindBlock env .debounce s := by
  have hv := isValid_eq_isSome .debounce s
  simp only [Kind.isValid, Kind.payload] at hv
  unfold kindBlock
  cases h : debounceData s.debounce with
  | none =>
    simp [hv, h, Kind.payload, Kind.isDefault, Kind.warning]
  | some data =>
    simp only [hv, h, Kind.payload, Option.isSome_some, if_true]
    exact setDebounce_eq env s data h hd

/-- A block changes nothing but the trace. -/
theorem kindBlock_frame (env : Usb) (k : Kind) (s : State) :
    (kindBlock env k s).state = { s with trace := (kindBlock env k s).state.trace } := by
  unfold kindBlock sendAndReport
  cases k.payload s with
  | none => by_cases h : k.isDefault s = true <;> simp [h, Step.state, State.emit]
  | some data => simp only []; cases env.control s.trace data <;> simp [Step.state]

theorem kindBlock_dev (env : Usb) (k : Kind) (s : State) (a : Unit) (s1 : State)
    (h : kindBlock env k s = .cont a s1) : s1.dev = s.dev := by
  have hf := kindBlock_frame env k s
  rw [h] at hf
  simp only [Step.state] at hf
  rw [hf]

theorem Step.bind_congr {α β : Type} (x : Step α) (f g : α → State → Step β)
    (h : ∀ a s, x = .cont a s → f a s = g a s) : x.bind f = x.bind g := by
  cases x with
  | cont a s => exact h a s rfl
  | halt o s => rfl

theorem settingBlocks_eq (env : Usb) (s : State) (hd : s.dev = true) :
    settingBlocks env s = applySettings env s := by
  unfold settingBlocks applySettings
  rw [motionSync_block env s hd]
  apply Step.bind_congr
  intro a s1 h1
  have hd1 : s1.dev = true := (kindBlock_dev env _ s a s1 h1).trans hd
  rw [pollingRate_block env s1 hd1]
  apply Step.bind_congr
  intro a2 s2 h2
  have hd2 : s2.dev = true := (kindBlock_dev env _ s1 a2 s2 h2).trans hd1
  exact debounce_block env s2 hd2

/-! ## Session set-up: lemmas -/

theorem claimInterfacesForConfig_ok (env : Usb) (l : List Nat) (s : State)
    (h : ∀ i ∈ l, env.claimOk i = true) :
    claimInterfacesForConfig env l s
      = .cont () { s with
          interfaceArray := s.interfaceArray ++ l
          trace := s.trace ++ l.map fun n => .claimInterface n 0 } := by
  induction l generalizing s with
  | nil => simp [claimInterfacesForConfig]
  | cons num rest ih =>
    have h1 : env.claimOk num = true := h num (by simp)
    have h2 : ∀ i ∈ rest, env.claimOk i = true := fun i hi => h i (by simp [hi])
    simp [claimInterfacesForConfig, h1, ih _ h2, State.emit]

theorem deferInterfaceCloses_eq (l : List Nat) (s : State) :
    deferInterfaceCloses l s
      = { s with deferred := l.reverse.map Event.closeInterface ++ s.deferred } := by
  induction l generalizing s with
  | nil => simp [deferInterfaceCloses]
  | cons num rest ih => simp [deferInterfaceCloses, ih, State.defer]

theorem mainBody_of_setupOk (env : Usb) (f : Flags) (pid cfg : Nat)
    (h : SetupOk env f pid cfg) :
    mainBody env (init f) = applySettings env (readyState env f pid cfg) := by
  obtain ⟨hg, hp, ho, ha, hc, hk, hi⟩ := h
  have hg2 : ¬ ((init f).nflag > 1 ∧ (init f).product_id = "f505") := hg
  unfold mainBody
  rw [if_neg hg2]
  simp only [openDevice, State.emit, hp, ho, Step.bind, State.defer, getActiveConfig, ha, hc, hk,
    claimInterfacesForConfig_ok env env.interfaces _ hi, deferInterfaceCloses_eq]
  simp only [Bool.true_eq_false, if_false, Step.bind, if_true]
  rw [settingBlocks_eq _ _ rfl]
  congr 1

/-! ## Runs in which nothing fails -/

@[simp] theorem Kind.payload_readyState (k : Kind) (env : Usb) (f : Flags) (pid cfg : Nat) :
    k.payload (readyState env f pid cfg) = k.payload (init f) := by
  cases k <;> rfl

@[simp] theorem Kind.segment_readyState (k : Kind) (env : Usb) (f : Flags) (pid cfg : Nat)
    (n : Int) : k.segment (readyState env f pid cfg) n = k.segment (init f) n := by
  cases k <;> rfl

theorem Kind.payload_withTrace (k : Kind) (s : State) (t : List Event) :
    k.payload { s with trace := t } = k.payload s := by
  cases k <;> rfl

theorem Kind.segment_withTrace (k : Kind) (s : State) (t : List Event) (n : Int) :
    k.segment { s with trace := t } n = k.segment s n := by
  cases k <;> rfl

theorem kindBlock_cont (env : Usb) (k : Kind) (s : State) (n : Int)
    (hn : ∀ d, k.payload s = some d → env.control s.trace d = some n) :
    kindBlock env k s = .cont () { s with trace := s.trace ++ k.segment s n } := by
  unfold kindBlock Kind.segment sendAndReport
  cases hp : k.payload s with
  | none => by_cases h : k.isDefault s = true <;> simp [h, State.emit]
  | some d => simp [hn d hp]

theorem applySettings_cont (env : Usb) (s : State) (n1 n2 n3 : Int)
    (h1 : ∀ d, Kind.motionSync.payload s = some d → env.control s.trace d = some n1)
    (h2 : ∀ d, Kind.pollingRate.payload s = some d →
      env.control (s.trace ++ Kind.motionSync.segment s n1) d = some n2)
    (h3 : ∀ d, Kind.debounce.payload s = some d →
      env.control (s.trace ++ Kind.motionSync.segment s n1 ++ Kind.pollingRate.segment s n2) d
        = some n3) :
    applySettings env s = .cont ()
      { s with trace := s.trace ++ Kind.motionSync.segment s n1 ++ Kind.pollingRate.segment s n2
          ++ Kind.debounce.segment s n3 } := by
  unfold applySettings
  rw [kindBlock_cont env _ s n1 h1]
  simp only [Step.bind]
  rw [kindBlock_cont env _ _ n2 (by simpa [Kind.payload_withTrace] using h2)]
  simp only [Step.bind]
  rw [kindBlock_cont env _ _ n3 (by simpa [Kind.payload_withTrace] using h3)]
  simp [Kind.segment_withTrace]

theorem run_of_applySettings_cont (env : Usb) (f : Flags) (pid cfg : Nat)
    (h : SetupOk env f pid cfg) (t : List Event)
    (ha : applySettings env (readyState env f pid cfg)
      = .cont () { readyState env f pid cfg with trace := t }) :
    run f env = { trace := t ++ cleanupTrace env, outcome := .returned } := by
  unfold run main
  rw [mainBody_of_setupOk env f pid cfg h, ha]
  simp [State.runDeferred, readyState]

/-- A run in which set-up succeeds and every transfer it makes is answered:
the trace is the set-up, the three blocks in order, then the clean-up. -/
theorem run_of_setupOk (env : Usb) (f : Flags) (pid cfg : Nat) (P : Int → Prop)
    (h : SetupOk env f pid cfg)
    (hc : ∀ (k : Kind) d, k.payload (init f) = some d → ∀ t, ∃ n, env.control t d = some n ∧ P n) :
    ∃ n1 n2 n3 : Int,
      run f env =
        { trace := setupTrace env pid cfg ++ Kind.motionSync.segment (init f) n1
            ++ Kind.pollingRate.segment (init f) n2 ++ Kind.debounce.segment (init f) n3
            ++ cleanupTrace env
          outcome := .returned } ∧
      ((Kind.motionSync.payload (init f)).isSome → P n1) ∧
      ((Kind.pollingRate.payload (init f)).isSome → P n2) ∧
      ((Kind.debounce.payload (init f)).isSome → P n3) := by
  have pick : ∀ (k : Kind) (t : List Event), ∃ n : Int,
      (∀ d, k.payload (init f) = some d → env.control t d = some n) ∧
      ((k.payload (init f)).isSome → P n) := by
    intro k t
    cases hp : k.payload (init f) with
    | none => exact ⟨0, by simp, by simp⟩
    | some d =>
      obtain ⟨n, hn, hP⟩ := hc k d hp t
      refine ⟨n, ?_, fun _ => hP⟩
      intro d2 hd2
      cases hd2
      exact hn
  obtain ⟨n1, c1, p1⟩ := pick .motionSync (setupTrace env pid cfg)
  obtain ⟨n2, c2, p2⟩ := pick .pollingRate
    (setupTrace env pid cfg ++ Kind.motionSync.segment (init f) n1)
  obtain ⟨n3, c3, p3⟩ := pick .debounce
    (setupTrace env pid cfg ++ Kind.motionSync.segment (init f) n1
      ++ Kind.pollingRate.segment (init f) n2)
  refine ⟨n1, n2, n3, ?_, p1, p2, p3⟩
  apply run_of_applySettings_cont env f pid cfg h
  have := applySettings_cont env (readyState env f pid cfg) n1 n2 n3
    (by simpa [readyState] using c1) (by simpa [readyState] using c2)
    (by simpa [readyState] using c3)
  simpa [readyState] using this

/-! ## The payload tables -/

/-- C1, as amended: for each supported polling rate the payload `setPollingRate`
builds, and hands to the control transfer, is
`08 07 00 00 00 06 <rate-code> <checksum> 01 54 00 55 00 00 00 00 41` with
125→(08,4d), 250→(04,51), 500→(02,53), 1000→(01,54), 2000→(10,45), 4000→(20,35). -/
theorem setPollingRate_payload (v : Int) (code cks : Nat)
    (h : (v, code, cks) ∈ [((125 : Int), 0x08, 0x4d), (250, 0x04, 0x51), (500, 0x02, 0x53),
      (1000, 0x01, 0x54), (2000, 0x10, 0x45), (4000, 0x20, 0x35)])
    (env : Usb) (s : State) (hv : s.polling_rate = v) (hd : s.dev = true) :
    pollingRateData v = some (specPollingRatePayload code cks) ∧
    transfers (setPollingRate env s).state.trace
      = transfers s.trace ++ [specPollingRatePayload code cks] := by
  have hrows : ∀ row ∈ [((125 : Int), 0x08, 0x4d), (250, 0x04, 0x51), (500, 0x02, 0x53),
      (1000, 0x01, 0x54), (2000, 0x10, 0x45), (4000, 0x20, 0x35)],
      pollingRateData row.1 = some (specPollingRatePayload row.2.1 row.2.2) := by decide
  have hdata : pollingRateData v = some (specPollingRatePayload code cks) := hrows _ h
  refine ⟨hdata, ?_⟩
  rw [setPollingRate_eq env s _ (hv ▸ hdata) hd, transfers_sendAndReport]

/-- Witness of `setPollingRate_payload`: 125 Hz, rate code 08. -/
theorem setPollingRate_payload_witness :
    pollingRateData 125 = some (specPollingRatePayload 0x08 0x4d) ∧
    transfers (setPollingRate (usbAllOk [] 17) (stateWith 125 0 "")).state.trace
      = transfers (stateWith 125 0 "").trace ++ [specPollingRatePayload 0x08 0x4d] :=
  setPollingRate_payload 125 0x08 0x4d (by simp) (usbAllOk [] 17) (stateWith 125 0 "") rfl rfl

/-- C1, counterexample: the specification's row 125→(07,4d) is not what
`setPollingRate` builds for 125; the code has rate code 08. -/
theorem setPollingRate_payload_125_differs :
    ((125 : Int), 0x07, 0x4d) ∈ specPollingRateTable ∧
    pollingRateData 125 ≠ some (specPollingRatePayload 0x07 0x4d) ∧
    transfers (setPollingRate (usbAllOk [] 17) (stateWith 125 0 "")).state.trace
      ≠ [specPollingRatePayload 0x07 0x4d] := by
  refine ⟨by simp [specPollingRateTable], by simp [pollingRateData, specPollingRatePayload], ?_⟩
  rw [setPollingRate_eq _ _ (specPollingRatePayload 0x08 0x4d)
    (by simp [stateWith, pollingRateData, specPollingRatePayload]) rfl, transfers_sendAndReport]
  simp [stateWith, specPollingRatePayload]

/-- C2: for each supported debounce value the payload `setDebounce` builds, and
hands to the control transfer, is
`08 07 00 00 a9 0a <db-code> <checksum> 01 54 06 4f 00 55 00 55 ea` with the
specification's pairs 1→(01,54), 2→(02,53), 4→(04,51), 8→(08,4d), 15→(15,40),
20→(14,41). -/
theorem setDebounce_payload (d : Int) (code cks : Nat)
    (h : (d, code, cks) ∈ specDebounceTable)
    (env : Usb) (s : State) (hv : s.debounce = d) (hd : s.dev = true) :
    debounceData d = some (specDebouncePayload code cks) ∧
    transfers (setDebounce env s).state.trace
      = transfers s.trace ++ [specDebouncePayload code cks] := by
  have hrows : ∀ row ∈ specDebounceTable,
      debounceData row.1 = some (specDebouncePayload row.2.1 row.2.2) := by decide
  have hdata : debounceData d = some (specDebouncePayload code cks) := hrows _ h
  refine ⟨hdata, ?_⟩
  rw [setDebounce_eq env s _ (hv ▸ hdata) hd, transfers_sendAndReport]

/-- Witness of `setDebounce_payload`: 15 ms, code 0x15. -/
theorem setDebounce_payload_witness :
    debounceData 15 = some (specDebouncePayload 0x15 0x40) ∧
    transfers (setDebounce (usbAllOk [] 17) (stateWith 0 15 "")).state.trace
      = transfers (stateWith 0 15 "").trace ++ [specDebouncePayload 0x15 0x40] :=
  setDebounce_payload 15 0x15 0x40 (by simp [specDebounceTable]) (usbAllOk [] 17)
    (stateWith 0 15 "") rfl rfl

/-- C3: for "on" and "off" the payload `setMotionSync` builds, and hands to the
control transfer, is `08 07 00 00 a9 0a 00 55 <on-byte> <on-checksum> 06 4f 00 55 00 55 ea`
with (01,54) for "on" and (00,55) for "off". -/
theorem setMotionSync_payload (m : String) (onByte cks : Nat)
    (h : (m, onByte, cks) ∈ specMotionSyncTable)
    (env : Usb) (s : State) (hv : s.motion_sync = m) (hd : s.dev = true) :
    motionSyncData m = some (specMotionSyncPayload onByte cks) ∧
    transfers (setMotionSync env s).state.trace
      = transfers s.trace ++ [specMotionSyncPayload onByte cks] := by
  have hrows : ∀ row ∈ specMotionSyncTable,
      motionSyncData row.1 = some (specMotionSyncPayload row.2.1 row.2.2) := by decide
  have hdata : motionSyncData m = some (specMotionSyncPayload onByte cks) := hrows _ h
  refine ⟨hdata, ?_⟩
  rw [setMotionSync_eq env s _ (hv ▸ hdata) hd, transfers_sendAndReport]

/-- Witness of `setMotionSync_payload`: "off". -/
theorem setMotionSync_payload_witness :
    motionSyncData "off" = some (specMotionSyncPayload 0x00 0x55) ∧
    transfers (setMotionSync (usbAllOk [] 17) (stateWith 0 0 "off")).state.trace
      = transfers (stateWith 0 0 "off").trace ++ [specMotionSyncPayload 0x00 0x55] :=
  setMotionSync_payload "off" 0x00 0x55 (by simp [specMotionSyncTable]) (usbAllOk [] 17)
    (stateWith 0 0 "off") rfl rfl

/-! ## The flag check and whole runs -/

@[simp] theorem transfers_map_claimInterface (l : List Nat) :
    transfers (l.map fun n => Event.claimInterface n 0) = [] := by
  induction l with
  | nil => rfl
  | cons a l ih => simp [ih, Event.transferData]

@[simp] theorem printed_map_claimInterface (l : List Nat) :
    printed (l.map fun n => Event.claimInterface n 0) = [] := by
  induction l with
  | nil => rfl
  | cons a l ih => simp [ih, Event.printedLine]

@[simp] theorem transfers_map_closeInterface (l : List Nat) :
    transfers (l.map Event.closeInterface) = [] := by
  induction l with
  | nil => rfl
  | cons a l ih => simp [ih, Event.transferData]

@[simp] theorem printed_map_closeInterface (l : List Nat) :
    printed (l.map Event.closeInterface) = [] := by
  induction l with
  | nil => rfl
  | cons a l ih => simp [ih, Event.printedLine]

@[simp] theorem transfers_setupTrace (env : Usb) (pid cfg : Nat) :
    transfers (setupTrace env pid cfg) = [] := by
  simp [setupTrace, Event.transferData]

@[simp] theorem printed_setupTrace (env : Usb) (pid cfg : Nat) :
    printed (setupTrace env pid cfg) = [] := by
  simp [setupTrace, Event.printedLine]

@[simp] theorem transfers_cleanupTrace (env : Usb) : transfers (cleanupTrace env) = [] := by
  simp only [cleanupTrace, transfers_append, transfers_map_closeInterface]
  simp [Event.transferData]

@[simp] theorem printed_cleanupTrace (env : Usb) : printed (cleanupTrace env) = [] := by
  simp only [cleanupTrace, printed_append, printed_map_closeInterface]
  simp [Event.printedLine]

theorem transfers_segment (k : Kind) (s : State) (n : Int) :
    transfers (k.segment s n) = (k.payload s).toList := by
  unfold Kind.segment
  cases k.payload s with
  | none => by_cases h : k.isDefault s = true <;> simp [h, Event.transferData]
  | some d => by_cases h : n = 17 <;> simp [h, Event.transferData]

/-- C4, evaluated at the failing input `-pid=f506 -pr=1000 -db=2`: the flag
check lets the run through and two control transfers are issued, one per
setting. -/
theorem two_settings_applied_with_pid :
    run { pr := some 1000, db := some 2, pid := some "f506", ms := none } (usbAllOk [0] 17)
      = { trace :=
            [.newContext, .openDeviceWithVIDPID 0x3554 0xf506, .closeContext, .setAutoDetach true,
              .activeConfigNum, .config 1, .claimInterface 0 0,
              .control 0x21 0x09 0x208 1 (specPollingRatePayload 0x01 0x54),
              .println "Polling rate set to 1000",
              .control 0x21 0x09 0x208 1 (specDebouncePayload 0x02 0x53),
              .println "Debounce set to 2",
              .closeInterface 0, .closeConfig, .closeDevice]
          outcome := .returned } ∧
    (transfers (run { pr := some 1000, db := some 2, pid := some "f506", ms := none }
      (usbAllOk [0] 17)).trace).length = 2 := by
  decide

/-- C5: when at least two of `-pr`, `-db`, `-ms` are supplied and `-pid` is not,
the run prints the "more than 1 setting" message and exits with status 0;
nothing else happens, so the device is never opened, claimed or written to. -/
theorem several_settings_without_pid_exit (f : Flags) (env : Usb)
    (hpid : f.pid = none) (hn : 2 ≤ settingFlagsSupplied f) :
    run f env =
      { trace := [.println "Changing more than 1 setting at one go is not supported"]
        outcome := .exited 0 } := by
  have h1 : (init f).nflag > 1 := by
    simp only [init, NFlag, hpid, settingFlagsSupplied] at hn ⊢
    simp only [Option.isSome_none, Bool.false_eq_true, if_false]
    omega
  have h2 : (init f).product_id = "f505" := by simp [init, hpid]
  unfold run main mainBody
  rw [if_pos ⟨h1, h2⟩]
  simp [State.emit, init]

/-- Witness of `several_settings_without_pid_exit`: `-pr=1000 -db=2`. -/
theorem several_settings_without_pid_exit_witness :
    run { pr := some 1000, db := some 2, pid := none, ms := none } (usbAllOk [0] 17) =
      { trace := [.println "Changing more than 1 setting at one go is not supported"]
        outcome := .exited 0 } :=
  several_settings_without_pid_exit _ _ rfl (by decide)

/-- C6, evaluated at the failing input `-pid=f505 -pr=1000`: the product ID is
given explicitly, with exactly one other flag, and the flag check still rejects
the run, whatever the USB layer would answer. -/
theorem explicit_default_pid_rejected (env : Usb) :
    run { pr := some 1000, db := none, pid := some "f505", ms := none } env =
      { trace := [.println "Changing more than 1 setting at one go is not supported"]
        outcome := .exited 0 } := by
  unfold run main mainBody
  rw [if_pos (by decide)]
  simp [State.emit, init]

/-- C7: a run with only `-pr=v`, `v` supported, in which session set-up succeeds
and the transfer reports 17 bytes, does the set-up for product ID 0xf505, issues
exactly one control transfer, carrying the table entry for `v`, prints exactly
the line "Polling rate set to v", cleans up and returns. -/
theorem single_polling_rate_run (v : Int) (env : Usb) (pid cfg : Nat)
    (hv : v ∈ [(125 : Int), 250, 500, 1000, 2000, 4000])
    (h : SetupOk env { pr := some v, db := none, pid := none, ms := none } pid cfg)
    (h17 : ∀ t d, pollingRateData v = some d → env.control t d = some 17) :
    ∃ data, pollingRateData v = some data ∧ pid = 0xf505 ∧
      run { pr := some v, db := none, pid := none, ms := none } env =
        { trace := setupTrace env pid cfg ++
            [.control 0x21 0x09 0x208 1 data, .println ("Polling rate set to " ++ toString v)]
            ++ cleanupTrace env
          outcome := .returned } ∧
      transfers (run { pr := some v, db := none, pid := none, ms := none } env).trace = [data] ∧
      printed (run { pr := some v, db := none, pid := none, ms := none } env).trace
        = ["Polling rate set to " ++ toString v] := by
  have hsupported : ∀ w ∈ [(125 : Int), 250, 500, 1000, 2000, 4000],
      (pollingRateData w).isSome = true := by decide
  have hsome : (pollingRateData v).isSome = true := hsupported v hv
  obtain ⟨data, hdata⟩ := Option.isSome_iff_exists.mp hsome
  have hpid : pid = 0xf505 := by
    have hp := h.2.1
    have : parseUint16 "f505" = some 0xf505 := by decide
    simp only [init, Option.getD_none, if_true] at hp
    rw [this] at hp
    exact (Option.some.inj hp).symm
  obtain ⟨n1, n2, n3, hrun, -, p2, -⟩ := run_of_setupOk env _ pid cfg (fun n => n = 17) h (by
    intro k d hk t
    cases k
    · simp [Kind.payload, init, motionSyncData] at hk
    · exact ⟨17, h17 t d hk, rfl⟩
    · simp [Kind.payload, init, debounceData] at hk)
  have hn2 : n2 = 17 := p2 (by simpa [Kind.payload, init] using hsome)
  have e1 : Kind.motionSync.segment
      (init { pr := some v, db := none, pid := none, ms := none }) n1 = [] := by
    simp [Kind.segment, Kind.payload, Kind.isDefault, init, motionSyncData]
  have e2 : Kind.pollingRate.segment
      (init { pr := some v, db := none, pid := none, ms := none }) n2
      = [.control 0x21 0x09 0x208 1 data, .println ("Polling rate set to " ++ toString v)] := by
    simp [Kind.segment, Kind.payload, Kind.success, init, hdata, hn2]
  have e3 : Kind.debounce.segment
      (init { pr := some v, db := none, pid := none, ms := none }) n3 = [] := by
    simp [Kind.segment, Kind.payload, Kind.isDefault, init, debounceData]
  rw [e1, e2, e3] at hrun
  refine ⟨data, hdata, hpid, by simpa using hrun, ?_, ?_⟩
  · rw [hrun]; simp [Event.transferData]
  · rw [hrun]; simp [Event.printedLine]

/-- Witness of `single_polling_rate_run`: `-pr=1000` on a device with two interfaces. -/
theorem single_polling_rate_run_witness :
    ∃ data, pollingRateData 1000 = some data ∧ 0xf505 = 0xf505 ∧
      run { pr := some 1000, db := none, pid := none, ms := none } (usbAllOk [0, 1] 17) =
        { trace := setupTrace (usbAllOk [0, 1] 17) 0xf505 1 ++
            [.control 0x21 0x09 0x208 1 data, .println ("Polling rate set to " ++ toString (1000 : Int))]
            ++ cleanupTrace (usbAllOk [0, 1] 17)
          outcome := .returned } ∧
      transfers (run { pr := some 1000, db := none, pid := none, ms := none }
        (usbAllOk [0, 1] 17)).trace = [data] ∧
      printed (run { pr := some 1000, db := none, pid := none, ms := none }
        (usbAllOk [0, 1] 17)).trace = ["Polling rate set to " ++ toString (1000 : Int)] :=
  single_polling_rate_run 1000 (usbAllOk [0, 1] 17) 0xf505 1 (by decide) (by decide)
    (fun _ _ _ => rfl)

/-- The run of the specification's example `-pr=1000`, spelled out. -/
theorem polling_rate_1000_run :
    run { pr := some 1000, db := none, pid := none, ms := none } (usbAllOk [0, 1] 17) =
      { trace :=
          [.newContext, .openDeviceWithVIDPID 0x3554 0xf505, .closeContext, .setAutoDetach true,
            .activeConfigNum, .config 1, .claimInterface 0 0, .claimInterface 1 0,
            .control 0x21 0x09 0x208 1
              [0x08, 0x07, 0x00, 0x00, 0x00, 0x06, 0x01, 0x54, 0x01, 0x54, 0x00, 0x55,
                0x00, 0x00, 0x00, 0x00, 0x41],
            .println "Polling rate set to 1000",
            .closeInterface 1, .closeInterface 0, .closeConfig, .closeDevice]
        outcome := .returned } := by
  decide

/-! ## Invalid values -/

theorem pollingRateData_bytes (v : Int) (d : List Nat) (h : pollingRateData v = some d) :
    d[4]? = some 0x00 := by
  unfold pollingRateData at h
  split_ifs at h <;> (cases h; rfl)

theorem debounceData_bytes (v : Int) (d : List Nat) (h : debounceData v = some d) :
    d[4]? = some 0xa9 ∧ d[6]? ≠ some 0x00 := by
  unfold debounceData at h
  split_ifs at h <;> (cases h; decide)

theorem motionSyncData_bytes (m : String) (d : List Nat) (h : motionSyncData m = some d) :
    d[4]? = some 0xa9 ∧ d[6]? = some 0x00 := by
  unfold motionSyncData at h
  split_ifs at h <;> (cases h; decide)

/-- A table entry belongs to one kind only: bytes 4 and 6 tell the kinds apart. -/
theorem payload_kind_unique (k1 k2 : Kind) (s1 s2 : State) (d : List Nat)
    (h1 : k1.payload s1 = some d) (h2 : k2.payload s2 = some d) : k1 = k2 := by
  cases k1 <;> cases k2 <;> first
    | rfl
    | (exfalso
       simp only [Kind.payload] at h1 h2
       first
         | (have a := motionSyncData_bytes _ _ h1
            have b := pollingRateData_bytes _ _ h2
            simp_all)
         | (have a := motionSyncData_bytes _ _ h1
            have b := debounceData_bytes _ _ h2
            simp_all)
         | (have a := pollingRateData_bytes _ _ h1
            have b := motionSyncData_bytes _ _ h2
            simp_all)
         | (have a := pollingRateData_bytes _ _ h1
            have b := debounceData_bytes _ _ h2
            simp_all)
         | (have a := debounceData_bytes _ _ h1
            have b := motionSyncData_bytes _ _ h2
            simp_all)
         | (have a := debounceData_bytes _ _ h1
            have b := pollingRateData_bytes _ _ h2
            simp_all))

theorem printed_segment_of_invalid (k : Kind) (s : State) (n : Int)
    (hp : k.payload s = none) (hd : k.isDefault s = false) :
    printed (k.segment s n) = [k.warning] := by
  simp [Kind.segment, hp, hd, Event.printedLine]

theorem payload_none_of_invalid (k : Kind) (s : State) (h : k.isValid s = false) :
    k.payload s = none := by
  rw [isValid_eq_isSome] at h
  cases hp : k.payload s with
  | none => rfl
  | some d => simp [hp] at h

/-- C8, counterexample: `-pid=f506 -ms=on -db=3` on a device whose control
transfers fail.  Session set-up succeeds and debounce 3 is neither valid nor the
default, yet the run ends fatally in the motion-sync transfer and the debounce
warning is never printed. -/
theorem invalid_value_not_warned_after_fatal_transfer :
    SetupOk (usbControlFails [0])
      { pr := none, db := some 3, pid := some "f506", ms := some "on" } 0xf506 1 ∧
    Kind.debounce.isValid (init { pr := none, db := some 3, pid := some "f506", ms := some "on" })
      = false ∧
    Kind.debounce.isDefault (init { pr := none, db := some 3, pid := some "f506", ms := some "on" })
      = false ∧
    (run { pr := none, db := some 3, pid := some "f506", ms := some "on" }
      (usbControlFails [0])).outcome = .exited 1 ∧
    Kind.debounce.warning ∉ printed
      (run { pr := none, db := some 3, pid := some "f506", ms := some "on" }
        (usbControlFails [0])).trace := by
  decide

/-- C8, as amended: in a run in which session set-up succeeds and no control
transfer made for another kind fails, a value that is neither valid nor the
default gets its kind's warning printed and no control transfer (no transferred
data is an entry of that kind's table); the run returns normally, having sent
exactly the table entries of the valid kinds, in the order motion sync, polling
rate, debounce, and having warned about every other invalid value too. -/
theorem invalid_value_warned_and_skipped (k : Kind) (f : Flags) (env : Usb) (pid cfg : Nat)
    (h : SetupOk env f pid cfg)
    (hinv : k.isValid (init f) = false) (hnd : k.isDefault (init f) = false)
    (hc : ∀ (k2 : Kind) d, k2.payload (init f) = some d → ∀ t, env.control t d ≠ none) :
    (run f env).outcome = .returned ∧
    k.warning ∈ printed (run f env).trace ∧
    (∀ d ∈ transfers (run f env).trace, ∀ s, k.payload s ≠ some d) ∧
    transfers (run f env).trace
      = (Kind.motionSync.payload (init f)).toList ++ (Kind.pollingRate.payload (init f)).toList
        ++ (Kind.debounce.payload (init f)).toList ∧
    (∀ k2 : Kind, k2.isValid (init f) = false → k2.isDefault (init f) = false →
      k2.warning ∈ printed (run f env).trace) := by
  obtain ⟨n1, n2, n3, hrun, -⟩ := run_of_setupOk env f pid cfg (fun _ => True) h (by
    intro k2 d hk t
    cases hr : env.control t d with
    | none => exact absurd hr (hc k2 d hk t)
    | some n => exact ⟨n, rfl, trivial⟩)
  have htr : transfers (run f env).trace
      = (Kind.motionSync.payload (init f)).toList ++ (Kind.pollingRate.payload (init f)).toList
        ++ (Kind.debounce.payload (init f)).toList := by
    rw [hrun]; simp [transfers_segment]
  have hwarn : ∀ k2 : Kind, k2.isValid (init f) = false → k2.isDefault (init f) = false →
      k2.warning ∈ printed (run f env).trace := by
    intro k2 hv hd
    have hp := payload_none_of_invalid k2 _ hv
    rw [hrun]
    cases k2 <;> simp [printed_segment_of_invalid _ _ _ hp hd]
  refine ⟨by rw [hrun], hwarn k hinv hnd, ?_, htr, hwarn⟩
  intro d hd s hs
  rw [htr] at hd
  have hk := payload_none_of_invalid k _ hinv
  simp only [List.mem_append, Option.mem_toList, Option.mem_def] at hd
  rcases hd with (hd | hd) | hd
  · have := payload_kind_unique _ _ _ _ d hs hd
    subst this; rw [hk] at hd; cases hd
  · have := payload_kind_unique _ _ _ _ d hs hd
    subst this; rw [hk] at hd; cases hd
  · have := payload_kind_unique _ _ _ _ d hs hd
    subst this; rw [hk] at hd; cases hd

/-- Witness of `invalid_value_warned_and_skipped`: `-db=3`, the specification's example. -/
theorem invalid_value_warned_and_skipped_witness :
    (run { pr := none, db := some 3, pid := none, ms := none } (usbAllOk [0] 17)).outcome
      = .returned ∧
    Kind.debounce.warning ∈ printed
      (run { pr := none, db := some 3, pid := none, ms := none } (usbAllOk [0] 17)).trace ∧
    (∀ d ∈ transfers
        (run { pr := none, db := some 3, pid := none, ms := none } (usbAllOk [0] 17)).trace,
      ∀ s, Kind.debounce.payload s ≠ some d) ∧
    transfers (run { pr := none, db := some 3, pid := none, ms := none } (usbAllOk [0] 17)).trace
      = (Kind.motionSync.payload
          (init { pr := none, db := some 3, pid := none, ms := none })).toList
        ++ (Kind.pollingRate.payload
          (init { pr := none, db := some 3, pid := none, ms := none })).toList
        ++ (Kind.debounce.payload
          (init { pr := none, db := some 3, pid := none, ms := none })).toList ∧
    (∀ k2 : Kind,
      k2.isValid (init { pr := none, db := some 3, pid := none, ms := none }) = false →
      k2.isDefault (init { pr := none, db := some 3, pid := none, ms := none }) = false →
      k2.warning ∈ printed
        (run { pr := none, db := some 3, pid := none, ms := none } (usbAllOk [0] 17)).trace) :=
  invalid_value_warned_and_skipped .debounce
    { pr := none, db := some 3, pid := none, ms := none } (usbAllOk [0] 17) 0xf505 1
    (by decide) (by decide) (by decide) (fun _ _ _ _ => by simp [usbAllOk])

/-! ## Every run, failing ones included -/

theorem SettingsOnly.nil (s : State) : SettingsOnly s [] := by
  simp [SettingsOnly]

theorem SettingsOnly.append {s : State} {a b : List Event}
    (ha : SettingsOnly s a) (hb : SettingsOnly s b) : SettingsOnly s (a ++ b) := by
  constructor
  · intro d hd
    rw [transfers_append, List.mem_append] at hd
    exact hd.elim (ha.1 d) (hb.1 d)
  · intro l hl
    rw [printed_append, List.mem_append] at hl
    exact hl.elim (ha.2 l) (hb.2 l)

theorem SettingsOnly.withTrace {s : State} {a : List Event} (t : List Event)
    (h : SettingsOnly s a) : SettingsOnly { s with trace := t } a := by
  constructor
  · intro d hd
    obtain ⟨k, hk⟩ := h.1 d hd
    exact ⟨k, by cases k <;> exact hk⟩
  · intro l hl
    obtain ⟨k, hk⟩ := h.2 l hl
    exact ⟨k, by cases k <;> exact hk⟩

theorem SettingsOnly.of_withTrace {s : State} {a : List Event} (t : List Event)
    (h : SettingsOnly { s with trace := t } a) : SettingsOnly s a := by
  constructor
  · intro d hd
    obtain ⟨k, hk⟩ := h.1 d hd
    exact ⟨k, by cases k <;> exact hk⟩
  · intro l hl
    obtain ⟨k, hk⟩ := h.2 l hl
    exact ⟨k, by cases k <;> exact hk⟩

/-- One block, however it ends: it only appends events of its own kind. -/
theorem kindBlock_state (env : Usb) (k : Kind) (s : State) :
    ∃ t, (kindBlock env k s).state = { s with trace := s.trace ++ t } ∧ SettingsOnly s t := by
  unfold kindBlock sendAndReport
  cases hp : k.payload s with
  | none =>
    by_cases h : k.isDefault s = true
    · exact ⟨[], by simp [h, Step.state], SettingsOnly.nil s⟩
    · refine ⟨[.println k.warning], by simp [h, Step.state, State.emit], ?_⟩
      constructor
      · simp [Event.transferData]
      · intro l hl
        simp only [printed_cons, Event.printedLine, Option.toList_some, printed_nil,
          List.append_nil, List.mem_singleton] at hl
        exact ⟨k, Or.inl ⟨hl, hp, by simpa using h⟩⟩
  | some d =>
    have hsend : ∀ l : List Event, (∀ x ∈ printed l, x = k.success s) →
        transfers l = [] → SettingsOnly s (Event.control 0x21 0x09 0x208 1 d :: l) := by
      intro l hl ht
      constructor
      · intro d2 hd2
        simp only [transfers_cons, Event.transferData, Option.toList_some, ht,
          List.append_nil, List.mem_singleton] at hd2
        exact ⟨k, by rw [hd2]; exact hp⟩
      · intro x hx
        simp only [printed_cons, Event.printedLine, Option.toList_none, List.nil_append] at hx
        exact ⟨k, Or.inr ⟨hl x hx, by simp [hp]⟩⟩
    cases hc : env.control s.trace d with
    | none =>
      exact ⟨[.control 0x21 0x09 0x208 1 d, .fatal "Error sending control"],
        by simp [hc, Step.state],
        hsend [.fatal "Error sending control"]
          (by simp [Event.printedLine]) (by simp [Event.transferData])⟩
    | some n =>
      refine ⟨.control 0x21 0x09 0x208 1 d :: (if n = 17 then [.println (k.success s)] else []),
        by simp [hc, Step.state], hsend _ ?_ ?_⟩
      · by_cases hn : n = 17 <;> simp [hn, Event.printedLine]
      · by_cases hn : n = 17 <;> simp [hn, Event.transferData]

/-- The three blocks, however they end: only events of the setting kinds are appended. -/
theorem applySettings_state (env : Usb) (s : State) :
    ∃ t, (applySettings env s).state = { s with trace := s.trace ++ t } ∧ SettingsOnly s t := by
  unfold applySettings
  obtain ⟨t1, e1, o1⟩ := kindBlock_state env .motionSync s
  cases h1 : kindBlock env .motionSync s with
  | halt o s1 =>
    rw [h1] at e1
    exact ⟨t1, by simpa [Step.bind, Step.state] using e1, o1⟩
  | cont a s1 =>
    rw [h1] at e1
    simp only [Step.state] at e1
    subst e1
    simp only [Step.bind]
    obtain ⟨t2, e2, o2⟩ := kindBlock_state env .pollingRate { s with trace := s.trace ++ t1 }
    have o2 := SettingsOnly.of_withTrace _ o2
    cases h2 : kindBlock env .pollingRate { s with trace := s.trace ++ t1 } with
    | halt o s2 =>
      rw [h2] at e2
      simp only [Step.state] at e2
      exact ⟨t1 ++ t2, by simp [Step.state, e2], o1.append o2⟩
    | cont a2 s2 =>
      rw [h2] at e2
      simp only [Step.state] at e2
      subst e2
      simp only []
      obtain ⟨t3, e3, o3⟩ := kindBlock_state env .debounce
        { s with trace := s.trace ++ t1 ++ t2 }
      have o3 := SettingsOnly.of_withTrace _ o3
      exact ⟨t1 ++ t2 ++ t3, by rw [e3]; simp [List.append_assoc], (o1.append o2).append o3⟩

theorem claimInterfacesForConfig_fail (env : Usb) (l : List Nat) (s : State)
    (h : ¬ ∀ i ∈ l, env.claimOk i = true) :
    ∃ s1, claimInterfacesForConfig env l s = .halt (.exited 1) s1 ∧
      transfers s1.trace = transfers s.trace ∧ printed s1.trace = printed s.trace := by
  induction l generalizing s with
  | nil => simp at h
  | cons num rest ih =>
    by_cases h1 : env.claimOk num = true
    · have h2 : ¬ ∀ i ∈ rest, env.claimOk i = true := by
        intro hall
        apply h
        intro i hi
        rcases List.mem_cons.mp hi with rfl | hi
        · exact h1
        · exact hall i hi
      obtain ⟨s1, e1, t1, p1⟩ := ih
        { (s.emit (.claimInterface num 0)) with
          interfaceArray := (s.emit (.claimInterface num 0)).interfaceArray ++ [num] } h2
      refine ⟨s1, by simp [claimInterfacesForConfig, h1, e1], ?_, ?_⟩
      · rw [t1]; simp [State.emit, Event.transferData]
      · rw [p1]; simp [State.emit, Event.printedLine]
    · exact ⟨(s.emit (.claimInterface num 0)).emit (.fatal "Failed to obtain interface"),
        by simp [claimInterfacesForConfig, h1, logFatal],
        by simp [State.emit, Event.transferData], by simp [State.emit, Event.printedLine]⟩

/-- Either session set-up succeeds, or the run ends before the setting blocks:
without any control transfer, and with nothing printed but, possibly, the
message of the flag check. -/
theorem run_of_setup_failure (f : Flags) (env : Usb) :
    (∃ pid cfg, SetupOk env f pid cfg) ∨
    (transfers (run f env).trace = [] ∧
      (printed (run f env).trace = [] ∨ printed (run f env).trace = [tooManyFlagsMessage]) ∧
      (run f env).outcome ≠ .returned) := by
  by_cases hg : (init f).nflag > 1 ∧ (init f).product_id = "f505"
  · right
    unfold run main mainBody
    rw [if_pos hg]
    simp [State.emit, init, Event.transferData, Event.printedLine, tooManyFlagsMessage]
  have hrun : run f env = match main env (init f) with
      | .cont _ s => { trace := s.trace, outcome := .returned }
      | .halt o s => { trace := s.trace, outcome := o } := rfl
  have hinit : (init f).trace = [] := rfl
  have hdef : (init f).deferred = [] := rfl
  cases hp : parseUint16 (init f).product_id with
  | none =>
    right
    rw [hrun]
    unfold main mainBody
    rw [if_neg hg]
    simp [openDevice, hp, logFatal, State.emit, Step.bind, hinit, Event.transferData,
      Event.printedLine]
  | some pid =>
    cases ho : env.openDev 0x3554 pid with
    | error =>
      right
      rw [hrun]
      unfold main mainBody
      rw [if_neg hg]
      simp [openDevice, hp, ho, logFatal, State.emit, Step.bind, hinit, Event.transferData,
        Event.printedLine]
    | notFound =>
      right
      rw [hrun]
      unfold main mainBody
      rw [if_neg hg]
      simp [openDevice, hp, ho, State.emit, Step.bind, hinit, hdef, Event.transferData,
        Event.printedLine, State.defer, State.runDeferred]
    | device =>
      by_cases ha : env.autoDetachOk = true
      swap
      · right
        rw [hrun]
        unfold main mainBody
        rw [if_neg hg]
        simp [openDevice, hp, ho, ha, logFatal, State.emit, Step.bind, hinit,
          Event.transferData, Event.printedLine, State.defer]
      cases hc : env.activeConfig with
      | none =>
        right
        rw [hrun]
        unfold main mainBody
        rw [if_neg hg]
        simp [openDevice, hp, ho, ha, hc, getActiveConfig, logFatal, State.emit, Step.bind,
          hinit, Event.transferData, Event.printedLine, State.defer]
      | some cfg =>
        by_cases hk : env.configOk cfg = true
        swap
        · right
          rw [hrun]
          unfold main mainBody
          rw [if_neg hg]
          simp [openDevice, hp, ho, ha, hc, hk, getActiveConfig, logFatal, State.emit,
            Step.bind, hinit, Event.transferData, Event.printedLine, State.defer]
        by_cases hi : ∀ i ∈ env.interfaces, env.claimOk i = true
        · exact Or.inl ⟨pid, cfg, hg, hp, ho, ha, hc, hk, hi⟩
        · right
          rw [hrun]
          unfold main mainBody
          rw [if_neg hg]
          simp only [openDevice, hp, ho, ha, hc, hk, getActiveConfig, State.emit, Step.bind,
            State.defer]
          simp only [Bool.true_eq_false, if_false, if_true, Step.bind]
          obtain ⟨s1, e1, t1, p1⟩ := claimInterfacesForConfig_fail env env.interfaces
            { interfaceArray := (init f).interfaceArray, polling_rate := (init f).polling_rate,
              product_id := (init f).product_id, motion_sync := (init f).motion_sync,
              debounce := (init f).debounce, dev := true, nflag := (init f).nflag,
              trace := (init f).trace ++ [Event.newContext] ++
                [Event.openDeviceWithVIDPID 0x3554 pid] ++ [Event.closeContext] ++
                [Event.setAutoDetach true] ++ [Event.activeConfigNum] ++ [Event.config cfg],
              deferred := Event.closeConfig :: Event.closeDevice :: (init f).deferred } hi
          rw [e1]
          simp only [Step.bind]
          rw [t1, p1]
          simp [hinit, Event.transferData, Event.printedLine]

theorem SettingsOnly.of_readyState {env : Usb} {f : Flags} {pid cfg : Nat} {a : List Event}
    (h : SettingsOnly (readyState env f pid cfg) a) : SettingsOnly (init f) a := by
  constructor
  · intro d hd
    obtain ⟨k, hk⟩ := h.1 d hd
    exact ⟨k, by cases k <;> exact hk⟩
  · intro l hl
    obtain ⟨k, hk⟩ := h.2 l hl
    exact ⟨k, by cases k <;> exact hk⟩

/-- Whatever the USB layer answers, every transfer of a run carries the table
entry of one of the flag values, and every printed line is the message of the
flag check, a warning for a value neither valid nor default, or a success line. -/
theorem run_explained (f : Flags) (env : Usb) :
    (∀ d ∈ transfers (run f env).trace, ∃ k : Kind, k.payload (init f) = some d) ∧
    (∀ line ∈ printed (run f env).trace, line = tooManyFlagsMessage ∨ ∃ k : Kind,
      (line = k.warning ∧ k.payload (init f) = none ∧ k.isDefault (init f) = false) ∨
      (line = k.success (init f) ∧ (k.payload (init f)).isSome)) := by
  rcases run_of_setup_failure f env with ⟨pid, cfg, h⟩ | ⟨ht, hp, -⟩
  · obtain ⟨t, e, o⟩ := applySettings_state env (readyState env f pid cfg)
    have o := o.of_readyState
    have key : transfers (run f env).trace = transfers t ∧
        printed (run f env).trace = printed t := by
      unfold run main
      rw [mainBody_of_setupOk env f pid cfg h]
      cases ha : applySettings env (readyState env f pid cfg) with
      | cont a s1 =>
        rw [ha] at e
        simp only [Step.state] at e
        subst e
        simp [State.runDeferred, readyState]
      | halt oc s1 =>
        rw [ha] at e
        simp only [Step.state] at e
        subst e
        cases oc <;> simp [State.runDeferred, readyState]
    rw [key.1, key.2]
    exact ⟨o.1, fun l hl => Or.inr (o.2 l hl)⟩
  · rw [ht]
    refine ⟨by simp, ?_⟩
    rcases hp with hp | hp <;> rw [hp] <;> simp

theorem isValid_false_of_isDefault (k : Kind) (s : State) (h : k.isDefault s = true) :
    k.isValid s = false := by
  cases k <;> simp only [Kind.isDefault, decide_eq_true_eq] at h <;>
    simp [Kind.isValid, is_motion_sync_valid, is_polling_rate_valid, is_debounce_valid, h]

theorem warning_injective (k1 k2 : Kind) (h : k1.warning = k2.warning) : k1 = k2 := by
  cases k1 <;> cases k2 <;> first | rfl | (exfalso; revert h; decide)

theorem success_ne_warning (k1 k2 : Kind) (s : State) (h : (k1.payload s).isSome = true) :
    k1.success s ≠ k2.warning := by
  cases k1
  · have hv : s.motion_sync = "on" ∨ s.motion_sync = "off" := by
      simp only [Kind.payload, motionSyncData] at h
      split_ifs at h <;> simp_all
    rcases hv with hv | hv <;> simp only [Kind.success, hv] <;> cases k2 <;> decide
  · have hv : s.polling_rate = 125 ∨ s.polling_rate = 250 ∨ s.polling_rate = 500 ∨
        s.polling_rate = 1000 ∨ s.polling_rate = 2000 ∨ s.polling_rate = 4000 := by
      simp only [Kind.payload, pollingRateData] at h
      split_ifs at h <;> simp_all
    rcases hv with hv | hv | hv | hv | hv | hv <;> simp only [Kind.success, hv] <;>
      cases k2 <;> decide
  · have hv : s.debounce = 1 ∨ s.debounce = 2 ∨ s.debounce = 4 ∨
        s.debounce = 8 ∨ s.debounce = 15 ∨ s.debounce = 20 := by
      simp only [Kind.payload, debounceData] at h
      split_ifs at h <;> simp_all
    rcases hv with hv | hv | hv | hv | hv | hv <;> simp only [Kind.success, hv] <;>
      cases k2 <;> decide

theorem tooManyFlagsMessage_ne_warning (k : Kind) : tooManyFlagsMessage ≠ k.warning := by
  cases k <;> decide

/-! ## Default values -/

/-- C9: a setting left at its default value is not requested.  Its validator
rejects it and its setter's table has no entry for it (so debounce 0 is never
encoded); in every run, whatever the other flags and the USB layer, no warning
for that kind is printed and no transferred data is an entry of that kind's
table.  When all three settings are at their defaults (as with no flags at
all) and session set-up succeeds, the run is the set-up followed by the
clean-up: nothing is sent, nothing is printed, and `main` returns. -/
theorem default_value_not_requested (k : Kind) (f : Flags) (env : Usb)
    (hk : k.isDefault (init f) = true) :
    k.isValid (init f) = false ∧ k.payload (init f) = none ∧
    k.warning ∉ printed (run f env).trace ∧
    (∀ d ∈ transfers (run f env).trace, ∀ s, k.payload s ≠ some d) ∧
    (∀ pid cfg, SetupOk env f pid cfg → (∀ k2 : Kind, k2.isDefault (init f) = true) →
      run f env = { trace := setupTrace env pid cfg ++ cleanupTrace env, outcome := .returned } ∧
      transfers (run f env).trace = [] ∧ printed (run f env).trace = []) := by
  have hv := isValid_false_of_isDefault k _ hk
  have hp := payload_none_of_invalid k _ hv
  obtain ⟨ht, hl⟩ := run_explained f env
  refine ⟨hv, hp, ?_, ?_, ?_⟩
  · intro hmem
    rcases hl _ hmem with h | ⟨k2, ⟨h, -, hd⟩ | ⟨h, hs⟩⟩
    · exact tooManyFlagsMessage_ne_warning k h.symm
    · have := warning_injective _ _ h
      subst this
      rw [hk] at hd
      cases hd
    · exact success_ne_warning k2 k _ hs h.symm
  · intro d hd s hs
    obtain ⟨k2, h2⟩ := ht d hd
    have := payload_kind_unique _ _ _ _ d hs h2
    subst this
    rw [hp] at h2
    cases h2
  · intro pid cfg hso hall
    have hnone : ∀ k2 : Kind, k2.payload (init f) = none := fun k2 =>
      payload_none_of_invalid k2 _ (isValid_false_of_isDefault k2 _ (hall k2))
    obtain ⟨n1, n2, n3, hrun, -⟩ := run_of_setupOk env f pid cfg (fun _ => True) hso (by
      intro k2 d h2
      rw [hnone k2] at h2
      cases h2)
    have hseg : ∀ (k2 : Kind) (n : Int), k2.segment (init f) n = [] := by
      intro k2 n
      simp [Kind.segment, hnone k2, hall k2]
    rw [hseg, hseg, hseg] at hrun
    have hrun2 : run f env
        = { trace := setupTrace env pid cfg ++ cleanupTrace env, outcome := .returned } := by
      simpa using hrun
    refine ⟨hrun2, ?_, ?_⟩ <;> rw [hrun2] <;> simp

/-- Witness of `default_value_not_requested`: no flags at all, debounce at 0. -/
theorem default_value_not_requested_witness :
    Kind.debounce.isValid (init noFlags) = false ∧ Kind.debounce.payload (init noFlags) = none ∧
    Kind.debounce.warning ∉ printed (run noFlags (usbAllOk [0, 1] 17)).trace ∧
    (∀ d ∈ transfers (run noFlags (usbAllOk [0, 1] 17)).trace,
      ∀ s, Kind.debounce.payload s ≠ some d) ∧
    (∀ pid cfg, SetupOk (usbAllOk [0, 1] 17) noFlags pid cfg →
      (∀ k2 : Kind, k2.isDefault (init noFlags) = true) →
      run noFlags (usbAllOk [0, 1] 17)
        = { trace := setupTrace (usbAllOk [0, 1] 17) pid cfg ++ cleanupTrace (usbAllOk [0, 1] 17)
            outcome := .returned } ∧
      transfers (run noFlags (usbAllOk [0, 1] 17)).trace = [] ∧
      printed (run noFlags (usbAllOk [0, 1] 17)).trace = []) :=
  default_value_not_requested .debounce noFlags (usbAllOk [0, 1] 17) (by decide)

/-- The run with no flags at all, spelled out: set-up, then clean-up. -/
theorem no_flags_run :
    SetupOk (usbAllOk [0, 1] 17) noFlags 0xf505 1 ∧
    (∀ k : Kind, k.isDefault (init noFlags) = true) ∧
    run noFlags (usbAllOk [0, 1] 17) =
      { trace :=
          [.newContext, .openDeviceWithVIDPID 0x3554 0xf505, .closeContext, .setAutoDetach true,
            .activeConfigNum, .config 1, .claimInterface 0 0, .claimInterface 1 0,
            .closeInterface 1, .closeInterface 0, .closeConfig, .closeDevice]
        outcome := .returned } := by
  refine ⟨by decide, fun k => by cases k <;> decide, by decide⟩

/-! ## Success is reported exactly for 17 bytes -/

theorem payload_length (k : Kind) (s : State) (d : List Nat) (h : k.payload s = some d) :
    d.length = 17 := by
  cases k <;> simp only [Kind.payload, motionSyncData, pollingRateData, debounceData] at h <;>
    split_ifs at h <;> (cases h; rfl)

theorem setter_eq (k : Kind) (env : Usb) (s : State) (d : List Nat)
    (hd : s.dev = true) (hp : k.payload s = some d) :
    k.setter env s = sendAndReport env d (k.success s) s := by
  cases k
  · exact setMotionSync_eq env s d hp hd
  · exact setPollingRate_eq env s d hp hd
  · exact setDebounce_eq env s d hp hd

/-- C10: for each setter, when the control transfer of the table entry `d`
returns the byte count `n`, the setter appends the transfer and, exactly when
`n = 17`, its success line; and 17 is the length of `d`, as of every entry of
the three tables, so success is reported exactly when `n` is the length of the
payload. -/
theorem success_iff_whole_payload (k : Kind) (env : Usb) (s : State) (d : List Nat) (n : Int)
    (hd : s.dev = true) (hp : k.payload s = some d) (hn : env.control s.trace d = some n) :
    d.length = 17 ∧
    k.setter env s = .cont ()
      { s with trace := s.trace ++
          .control 0x21 0x09 0x208 1 d :: (if n = 17 then [.println (k.success s)] else []) } ∧
    printed (k.setter env s).state.trace
      = printed s.trace ++ (if n = (d.length : Int) then [k.success s] else []) ∧
    (printed (k.setter env s).state.trace = printed s.trace ++ [k.success s] ↔ n = 17) := by
  have hlen := payload_length k s d hp
  have hset : k.setter env s = .cont ()
      { s with trace := s.trace ++
          .control 0x21 0x09 0x208 1 d :: (if n = 17 then [.println (k.success s)] else []) } := by
    rw [setter_eq k env s d hd hp]
    simp [sendAndReport, hn]
  refine ⟨hlen, hset, ?_, ?_⟩
  · rw [hset, hlen]
    by_cases h17 : n = 17 <;> simp [Step.state, h17, Event.printedLine]
  · rw [hset]
    by_cases h17 : n = 17 <;> simp [Step.state, h17, Event.printedLine]

/-- Witness of `success_iff_whole_payload`: debounce 8, answered with 17 bytes. -/
theorem success_iff_whole_payload_witness :
    (specDebouncePayload 0x08 0x4d).length = 17 ∧
    Kind.debounce.setter (usbAllOk [] 17) (stateWith 0 8 "") = .cont ()
      { (stateWith 0 8 "") with
        trace := (stateWith 0 8 "").trace ++
          (Event.control 0x21 0x09 0x208 1 (specDebouncePayload 0x08 0x4d) ::
            (if (17 : Int) = 17 then [Event.println (Kind.debounce.success (stateWith 0 8 ""))]
              else [])) } ∧
    printed (Kind.debounce.setter (usbAllOk [] 17) (stateWith 0 8 "")).state.trace
      = printed (stateWith 0 8 "").trace ++
        (if (17 : Int) = ((specDebouncePayload 0x08 0x4d).length : Int)
          then [Kind.debounce.success (stateWith 0 8 "")] else []) ∧
    (printed (Kind.debounce.setter (usbAllOk [] 17) (stateWith 0 8 "")).state.trace
      = printed (stateWith 0 8 "").trace ++ [Kind.debounce.success (stateWith 0 8 "")]
        ↔ (17 : Int) = 17) :=
  success_iff_whole_payload .debounce (usbAllOk [] 17) (stateWith 0 8 "")
    (specDebouncePayload 0x08 0x4d) 17 rfl (by decide) rfl

/-! ## No matching device -/

/-- C11, evaluated at the failing input: `-pr=1000` when no device matches and
`OpenDeviceWithVIDPID` returns a nil device with a nil error.  `openDevice`
returns normally, no "Couldn't open device" message is logged, and `main` goes
on to call `SetAutoDetach` on the nil handle, which panics. -/
theorem no_device_panics_without_message :
    run { pr := some 1000, db := none, pid := none, ms := none } usbNoDevice =
      { trace := [.newContext, .openDeviceWithVIDPID 0x3554 0xf505, .closeContext]
        outcome := .panicked } ∧
    Event.fatal ("Couldn't open device with VID 3554 and PID " ++ hexOfString "f505") ∉
      (run { pr := some 1000, db := none, pid := none, ms := none } usbNoDevice).trace := by
  decide

/-- Whenever the flag check passes, the product ID parses and no device
matches, the run is the open attempt followed by a panic. -/
theorem run_of_notFound (f : Flags) (env : Usb) (pid : Nat)
    (hg : ¬ ((init f).nflag > 1 ∧ (init f).product_id = "f505"))
    (hp : parseUint16 (init f).product_id = some pid)
    (ho : env.openDev 0x3554 pid = .notFound) :
    run f env =
      { trace := [.newContext, .openDeviceWithVIDPID 0x3554 pid, .closeContext]
        outcome := .panicked } := by
  have hinit : (init f).trace = [] := rfl
  have hdef : (init f).deferred = [] := rfl
  unfold run main mainBody
  rw [if_neg hg]
  simp [openDevice, hp, ho, State.emit, Step.bind, hinit, hdef, State.defer, State.runDeferred]

/-! ## Fatal errors and the deferred calls -/

/-- C13, evaluated at four failing inputs, all with `-pr=1000`: a fatal error in
`SetAutoDetach`, in `ActiveConfigNum`, in the claim of the second interface and
in the control transfer.  Each run ends with the logged message and exit
status 1, and releases nothing: not the device handle, not the configuration,
not the interfaces claimed so far. -/
theorem fatal_error_skips_cleanup :
    run { pr := some 1000, db := none, pid := none, ms := none } usbAutoDetachFails =
      { trace := [.newContext, .openDeviceWithVIDPID 0x3554 0xf505, .closeContext,
          .setAutoDetach true, .fatal "Couldn't set auto detach on"]
        outcome := .exited 1 } ∧
    run { pr := some 1000, db := none, pid := none, ms := none } usbActiveConfigFails =
      { trace := [.newContext, .openDeviceWithVIDPID 0x3554 0xf505, .closeContext,
          .setAutoDetach true, .activeConfigNum, .fatal "Couldn't get active config num"]
        outcome := .exited 1 } ∧
    run { pr := some 1000, db := none, pid := none, ms := none } usbSecondClaimFails =
      { trace := [.newContext, .openDeviceWithVIDPID 0x3554 0xf505, .closeContext,
          .setAutoDetach true, .activeConfigNum, .config 1, .claimInterface 0 0,
          .claimInterface 1 0, .fatal "Failed to obtain interface"]
        outcome := .exited 1 } ∧
    run { pr := some 1000, db := none, pid := none, ms := none } (usbControlFails [0, 1]) =
      { trace := [.newContext, .openDeviceWithVIDPID 0x3554 0xf505, .closeContext,
          .setAutoDetach true, .activeConfigNum, .config 1, .claimInterface 0 0,
          .claimInterface 1 0,
          .control 0x21 0x09 0x208 1 (specPollingRatePayload 0x01 0x54),
          .fatal "Error sending control"]
        outcome := .exited 1 } ∧
    releases (run { pr := some 1000, db := none, pid := none, ms := none }
      usbAutoDetachFails).trace = [] ∧
    releases (run { pr := some 1000, db := none, pid := none, ms := none }
      usbActiveConfigFails).trace = [] ∧
    releases (run { pr := some 1000, db := none, pid := none, ms := none }
      usbSecondClaimFails).trace = [] ∧
    releases (run { pr := some 1000, db := none, pid := none, ms := none }
      (usbControlFails [0, 1])).trace = [] ∧
    owedReleases (run { pr := some 1000, db := none, pid := none, ms := none }
      (usbControlFails [0, 1])).trace
      = [.closeDevice, .closeConfig, .closeInterface 0, .closeInterface 1] := by
  decide

/-! ## Clean-up on return -/

/-- One block either runs to its end or ends the process with status 1; either
way it appends only events of a setting block. -/
theorem kindBlock_cases (env : Usb) (k : Kind) (s : State) :
    ∃ t, (∀ e ∈ t, Event.isSettingEvent e = true) ∧
      (kindBlock env k s = .cont () { s with trace := s.trace ++ t } ∨
        kindBlock env k s = .halt (.exited 1) { s with trace := s.trace ++ t }) := by
  unfold kindBlock sendAndReport
  cases hp : k.payload s with
  | none =>
    by_cases h : k.isDefault s = true
    · exact ⟨[], by simp, Or.inl (by simp [h])⟩
    · exact ⟨[.println k.warning], by simp [Event.isSettingEvent],
        Or.inl (by simp [h, State.emit])⟩
  | some d =>
    cases hc : env.control s.trace d with
    | none =>
      exact ⟨[.control 0x21 0x09 0x208 1 d, .fatal "Error sending control"],
        by simp [Event.isSettingEvent], Or.inr (by simp [hc])⟩
    | some n =>
      refine ⟨.control 0x21 0x09 0x208 1 d :: (if n = 17 then [.println (k.success s)] else []),
        ?_, Or.inl (by simp [hc])⟩
      by_cases hn : n = 17 <;> simp [hn, Event.isSettingEvent]

/-- The three blocks either run to their end or end the process with status 1;
either way they append only events of a setting block. -/
theorem applySettings_cases (env : Usb) (s : State) :
    ∃ t, (∀ e ∈ t, Event.isSettingEvent e = true) ∧
      (applySettings env s = .cont () { s with trace := s.trace ++ t } ∨
        applySettings env s = .halt (.exited 1) { s with trace := s.trace ++ t }) := by
  unfold applySettings
  obtain ⟨t1, q1, c1 | c1⟩ := kindBlock_cases env .motionSync s
  swap
  · exact ⟨t1, q1, Or.inr (by rw [c1]; rfl)⟩
  rw [c1]
  simp only [Step.bind]
  obtain ⟨t2, q2, c2 | c2⟩ := kindBlock_cases env .pollingRate { s with trace := s.trace ++ t1 }
  swap
  · refine ⟨t1 ++ t2, ?_, Or.inr (by rw [c2]; simp)⟩
    intro e he
    rcases List.mem_append.mp he with he | he
    · exact q1 e he
    · exact q2 e he
  rw [c2]
  simp only []
  obtain ⟨t3, q3, c3⟩ := kindBlock_cases env .debounce { s with trace := s.trace ++ t1 ++ t2 }
  refine ⟨t1 ++ t2 ++ t3, ?_, ?_⟩
  · intro e he
    rcases List.mem_append.mp he with he | he
    · rcases List.mem_append.mp he with he | he
      · exact q1 e he
      · exact q2 e he
    · exact q3 e he
  · rcases c3 with c3 | c3
    · exact Or.inl (by rw [c3]; simp)
    · exact Or.inr (by rw [c3]; simp)

@[simp] theorem releases_append (a b : List Event) :
    releases (a ++ b) = releases a ++ releases b := by
  simp [releases]

@[simp] theorem owedReleases_append (a b : List Event) :
    owedReleases (a ++ b) = owedReleases a ++ owedReleases b := by
  simp [owedReleases]

theorem releases_map_claimInterface (l : List Nat) :
    releases (l.map fun n => Event.claimInterface n 0) = [] := by
  induction l with
  | nil => rfl
  | cons a l ih => simp [releases, Event.isRelease]

theorem owedReleases_map_claimInterface (l : List Nat) :
    owedReleases (l.map fun n => Event.claimInterface n 0) = l.map Event.closeInterface := by
  induction l with
  | nil => rfl
  | cons a l ih => simpa [owedReleases, Event.releaseOf] using ih

theorem releases_map_closeInterface (l : List Nat) :
    releases (l.map Event.closeInterface) = l.map Event.closeInterface := by
  induction l with
  | nil => rfl
  | cons a l ih => simp [releases, Event.isRelease]

theorem owedReleases_map_closeInterface (l : List Nat) :
    owedReleases (l.map Event.closeInterface) = [] := by
  induction l with
  | nil => rfl
  | cons a l ih => simp [owedReleases, Event.releaseOf]

theorem releases_of_settingEvents (t : List Event)
    (h : ∀ e ∈ t, Event.isSettingEvent e = true) : releases t = [] := by
  simp only [releases, List.filter_eq_nil_iff]
  intro e he
  have := h e he
  cases e <;> simp_all [Event.isSettingEvent, Event.isRelease]

theorem owedReleases_of_settingEvents (t : List Event)
    (h : ∀ e ∈ t, Event.isSettingEvent e = true) : owedReleases t = [] := by
  simp only [owedReleases, List.filterMap_eq_nil_iff]
  intro e he
  have := h e he
  cases e <;> simp_all [Event.isSettingEvent, Event.releaseOf]

theorem releases_setupTrace (env : Usb) (pid cfg : Nat) :
    releases (setupTrace env pid cfg) = [] := by
  simp only [setupTrace, releases_append, releases_map_claimInterface]
  rfl

theorem owedReleases_setupTrace (env : Usb) (pid cfg : Nat) :
    owedReleases (setupTrace env pid cfg)
      = Event.closeDevice :: Event.closeConfig :: env.interfaces.map Event.closeInterface := by
  simp only [setupTrace, owedReleases_append, owedReleases_map_claimInterface]
  rfl

theorem releases_cleanupTrace (env : Usb) : releases (cleanupTrace env) = cleanupTrace env := by
  simp only [cleanupTrace, releases_append, releases_map_closeInterface]
  rfl

theorem owedReleases_cleanupTrace (env : Usb) : owedReleases (cleanupTrace env) = [] := by
  simp only [cleanupTrace, owedReleases_append, owedReleases_map_closeInterface]
  rfl

/-- A run in which set-up succeeds ends in one of two ways: the three blocks
run to their end and `main` returns after the clean-up, or a control transfer
fails and the process exits with status 1 without any clean-up. -/
theorem run_of_setupOk_cases (env : Usb) (f : Flags) (pid cfg : Nat)
    (h : SetupOk env f pid cfg) :
    ∃ t, (∀ e ∈ t, Event.isSettingEvent e = true) ∧
      (run f env = { trace := setupTrace env pid cfg ++ t ++ cleanupTrace env
                     outcome := .returned } ∨
        run f env = { trace := setupTrace env pid cfg ++ t, outcome := .exited 1 }) := by
  obtain ⟨t, q, c | c⟩ := applySettings_cases env (readyState env f pid cfg)
  · exact ⟨t, q, Or.inl (run_of_applySettings_cont env f pid cfg h _ c)⟩
  · refine ⟨t, q, Or.inr ?_⟩
    unfold run main
    rw [mainBody_of_setupOk env f pid cfg h, c]
    rfl

/-- C12: in every run in which `main` returns (session set-up succeeded and no
fatal error occurred), whatever the flags and however many interfaces were
claimed, the trace ends with the clean-up: the claimed interfaces closed in the
reverse of the order they were claimed, then the configuration, then the device
handle.  Nothing is released before that, and the releases of the whole run
are the acquisitions (device, configuration, interfaces) in reverse order, each
released exactly once. -/
theorem cleanup_in_reverse_order (f : Flags) (env : Usb)
    (h : (run f env).outcome = .returned) :
    ∃ pid cfg body, SetupOk env f pid cfg ∧
      (run f env).trace = body ++
        (env.interfaces.reverse.map Event.closeInterface ++ [.closeConfig, .closeDevice]) ∧
      releases body = [] ∧
      owedReleases (run f env).trace
        = Event.closeDevice :: Event.closeConfig :: env.interfaces.map Event.closeInterface ∧
      releases (run f env).trace = (owedReleases (run f env).trace).reverse := by
  rcases run_of_setup_failure f env with ⟨pid, cfg, hs⟩ | ⟨-, -, hne⟩
  swap
  · exact absurd h hne
  obtain ⟨t, q, c | c⟩ := run_of_setupOk_cases env f pid cfg hs
  swap
  · rw [c] at h
    cases h
  refine ⟨pid, cfg, setupTrace env pid cfg ++ t, hs, by rw [c]; rfl, ?_, ?_, ?_⟩
  · rw [releases_append, releases_setupTrace, releases_of_settingEvents t q]
    rfl
  · rw [c]
    simp only [owedReleases_append, owedReleases_setupTrace, owedReleases_of_settingEvents t q,
      owedReleases_cleanupTrace, List.append_nil]
  · rw [c]
    simp only [owedReleases_append, owedReleases_setupTrace, owedReleases_of_settingEvents t q,
      owedReleases_cleanupTrace, releases_append, releases_setupTrace,
      releases_of_settingEvents t q, releases_cleanupTrace, List.append_nil, List.nil_append]
    simp [cleanupTrace]

/-- Witness of `cleanup_in_reverse_order`: `-pr=1000` on a device with three interfaces. -/
theorem cleanup_in_reverse_order_witness :
    ∃ pid cfg body,
      SetupOk (usbAllOk [0, 1, 2] 17) { pr := some 1000, db := none, pid := none, ms := none }
        pid cfg ∧
      (run { pr := some 1000, db := none, pid := none, ms := none } (usbAllOk [0, 1, 2] 17)).trace
        = body ++ ((usbAllOk [0, 1, 2] 17).interfaces.reverse.map Event.closeInterface
            ++ [.closeConfig, .closeDevice]) ∧
      releases body = [] ∧
      owedReleases
        (run { pr := some 1000, db := none, pid := none, ms := none } (usbAllOk [0, 1, 2] 17)).trace
        = Event.closeDevice :: Event.closeConfig ::
            (usbAllOk [0, 1, 2] 17).interfaces.map Event.closeInterface ∧
      releases
        (run { pr := some 1000, db := none, pid := none, ms := none } (usbAllOk [0, 1, 2] 17)).trace
        = (owedReleases (run { pr := some 1000, db := none, pid := none, ms := none }
            (usbAllOk [0, 1, 2] 17)).trace).reverse :=
  cleanup_in_reverse_order _ _ (by decide)

/-- The clean-up of a run on three interfaces, spelled out. -/
theorem cleanup_three_interfaces :
    releases (run noFlags (usbAllOk [0, 1, 2] 17)).trace
      = [.closeInterface 2, .closeInterface 1, .closeInterface 0, .closeConfig, .closeDevice] := by
  decide

/-! ## Parsing the product ID -/

theorem goDigit16_small :
    ∀ c < 128, goDigit16 c =
      if (0x30 ≤ c ∧ c ≤ 0x39) ∨ (0x61 ≤ c ∧ c ≤ 0x66) ∨ (0x41 ≤ c ∧ c ≤ 0x46) then
        some (if c ≤ 0x39 then c - 0x30 else if 0x61 ≤ c then c - 0x61 + 10 else c - 0x41 + 10)
      else none := by
  decide

theorem lor_ge_of_ge (c : Nat) (h : 128 ≤ c) : 128 ≤ c ||| 0x20 := by
  obtain ⟨i, hi, hb⟩ := Nat.ge_two_pow_implies_high_bit_true (n := 7) (x := c) (by simpa using h)
  have hb2 : (c ||| 0x20).testBit i = true := by simp [Nat.testBit_or, hb]
  have h1 := Nat.testBit_implies_ge hb2
  have h2 : 2 ^ 7 ≤ 2 ^ i := Nat.pow_le_pow_right (by decide) hi
  have h3 : (2 : Nat) ^ 7 = 128 := by decide
  omega

theorem goDigit16_eq (c : Char) :
    goDigit16 c.toNat = if isHexDigit c = true then some (hexDigitValue c) else none := by
  by_cases h : c.toNat < 128
  · rw [goDigit16_small _ h]
    simp [isHexDigit, hexDigitValue]
  · have h1 : 128 ≤ c.toNat := by omega
    have h2 := lor_ge_of_ge _ h1
    have h3 : isHexDigit c = false := by
      simp only [isHexDigit, decide_eq_false_iff_not]
      omega
    rw [h3]
    simp only [goDigit16]
    rw [if_neg (by omega), if_neg (by omega)]
    simp

theorem parseUintLoop_cons (ch : Char) (rest : List Char) (n : Nat) (hn : n ≤ 65535) :
    parseUintLoop 16 (2 ^ 16 - 1) (2 ^ 60) (ch :: rest) n =
      if isHexDigit ch = true ∧ n * 16 + hexDigitValue ch ≤ 65535 then
        parseUintLoop 16 (2 ^ 16 - 1) (2 ^ 60) rest (n * 16 + hexDigitValue ch)
      else none := by
  have hd := goDigit16_eq ch
  have hcut : ¬ n ≥ 2 ^ 60 := by
    have : (2 : Nat) ^ 60 = 1152921504606846976 := by decide
    omega
  have hmax : (2 : Nat) ^ 16 - 1 = 65535 := by decide
  simp only [parseUintLoop, hmax]
  unfold goDigit16 at hd
  by_cases a : 0x30 ≤ ch.toNat ∧ ch.toNat ≤ 0x39
  · rw [if_pos a] at hd ⊢
    by_cases hx : isHexDigit ch = true
    · rw [if_pos hx] at hd
      have hv : ch.toNat - 0x30 = hexDigitValue ch := Option.some.inj hd
      have h16 : ¬ ch.toNat - 0x30 ≥ 16 := by omega
      simp only [h16, hcut, if_false, hx, true_and, hv]
      by_cases hb : n * 16 + hexDigitValue ch ≤ 65535
      · have hb2 : ¬ n * 16 + hexDigitValue ch > 65535 := by omega
        have h17 : ¬ 16 ≤ hexDigitValue ch := by omega
        simp [hb, hb2, h17]
      · have hb2 : n * 16 + hexDigitValue ch > 65535 := by omega
        simp [hb, hb2]
    · rw [if_neg hx] at hd
      cases hd
  · rw [if_neg a] at hd ⊢
    by_cases b : 0x61 ≤ (ch.toNat ||| 0x20) ∧ (ch.toNat ||| 0x20) ≤ 0x7a
    · rw [if_pos b] at hd ⊢
      by_cases h16 : (ch.toNat ||| 0x20) - 0x61 + 10 ≥ 16
      · rw [if_pos h16] at hd
        have hx : ¬ isHexDigit ch = true := by
          intro hx
          rw [if_pos hx] at hd
          cases hd
        simp [h16, hx]
      · rw [if_neg h16] at hd
        by_cases hx : isHexDigit ch = true
        · rw [if_pos hx] at hd
          have hv : (ch.toNat ||| 0x20) - 0x61 + 10 = hexDigitValue ch := Option.some.inj hd
          simp only [h16, hcut, if_false, hx, true_and, hv]
          by_cases hb : n * 16 + hexDigitValue ch ≤ 65535
          · have hb2 : ¬ n * 16 + hexDigitValue ch > 65535 := by omega
            have h17 : ¬ 16 ≤ hexDigitValue ch := by omega
            simp [hb, hb2, h17]
          · have hb2 : n * 16 + hexDigitValue ch > 65535 := by omega
            simp [hb, hb2]
        · rw [if_neg hx] at hd
          cases hd
    · rw [if_neg b] at hd ⊢
      have hx : ¬ isHexDigit ch = true := by
        intro hx
        rw [if_pos hx] at hd
        cases hd
      simp [hx]

theorem le_hexValueFrom (l : List Char) (n : Nat) : n ≤ hexValueFrom n l := by
  induction l generalizing n with
  | nil => exact Nat.le_refl n
  | cons c rest ih =>
    have h := ih (n * 16 + hexDigitValue c)
    have e : hexValueFrom n (c :: rest) = hexValueFrom (n * 16 + hexDigitValue c) rest := rfl
    rw [e]
    omega

/-- The loop accepts exactly the strings of hexadecimal digits whose value stays
within 16 bits, and returns that value. -/
theorem parseUintLoop_eq_some (l : List Char) (n p : Nat) (hn : n ≤ 65535) :
    parseUintLoop 16 (2 ^ 16 - 1) (2 ^ 60) l n = some p ↔
      (∀ c ∈ l, isHexDigit c = true) ∧ hexValueFrom n l = p ∧ p ≤ 65535 := by
  induction l generalizing n with
  | nil =>
    simp only [parseUintLoop, Option.some.injEq, List.not_mem_nil, false_imp_iff, implies_true,
      true_and]
    constructor
    · intro h
      subst h
      exact ⟨rfl, hn⟩
    · intro h
      exact h.1
  | cons ch rest ih =>
    rw [parseUintLoop_cons ch rest n hn]
    have e : hexValueFrom n (ch :: rest) = hexValueFrom (n * 16 + hexDigitValue ch) rest := rfl
    by_cases hc : isHexDigit ch = true ∧ n * 16 + hexDigitValue ch ≤ 65535
    · rw [if_pos hc, ih _ hc.2, e]
      constructor
      · rintro ⟨h1, h2, h3⟩
        refine ⟨?_, h2, h3⟩
        intro c hmem
        rcases List.mem_cons.mp hmem with rfl | hmem
        · exact hc.1
        · exact h1 c hmem
      · rintro ⟨h1, h2, h3⟩
        exact ⟨fun c hmem => h1 c (List.mem_cons_of_mem _ hmem), h2, h3⟩
    · rw [if_neg hc]
      constructor
      · intro h
        cases h
      · rintro ⟨h1, h2, h3⟩
        exfalso
        apply hc
        refine ⟨h1 ch (List.mem_cons_self _ _), ?_⟩
        have := le_hexValueFrom rest (n * 16 + hexDigitValue ch)
        rw [e] at h2
        omega

theorem parseUint16_eq_some (s : String) (p : Nat) :
    parseUint16 s = some p ↔ ValidHexId s ∧ hexValue s.toList = p := by
  unfold parseUint16 ValidHexId hexValue
  by_cases h : s = ""
  · simp [h]
  · rw [if_neg h, parseUintLoop_eq_some _ _ _ (by decide)]
    have h16 : (2 : Nat) ^ 16 = 65536 := by decide
    constructor
    · rintro ⟨h1, h2, h3⟩
      exact ⟨⟨h, h1, by omega⟩, h2⟩
    · rintro ⟨⟨-, h1, h3⟩, h2⟩
      exact ⟨h1, h2, by omega⟩

theorem parseUint16_eq_none (s : String) (h : ¬ ValidHexId s) : parseUint16 s = none := by
  cases hp : parseUint16 s with
  | none => rfl
  | some p => exact absurd ((parseUint16_eq_some s p).mp hp).1 h

/-- C14: for every product-ID string, `openDevice` gets past parsing exactly when
the string is non-empty, made of hexadecimal digits only, and its value fits in
16 bits.  Then it asks the USB layer for vendor 0x3554 and that value, and the
call either ends in `ctx.Close()` or in the "Couldn't open device" error.
Otherwise it logs "Couldn't convert Product ID to int" and exits with status 1
right after creating the context, before any device is opened.  The default
product ID "f505" is accepted and parses to 0xF505. -/
theorem openDevice_product_id (env : Usb) (s : State) :
    (ValidHexId s.product_id →
      parseUint16 s.product_id = some (hexValue s.product_id.toList) ∧
      ∃ last, (openDevice env s).state.trace = s.trace ++
          [.newContext, .openDeviceWithVIDPID 0x3554 (hexValue s.product_id.toList), last] ∧
        (last = .closeContext ∨ last = .fatal
          ("Couldn't open device with VID 3554 and PID " ++ hexOfString s.product_id))) ∧
    (¬ ValidHexId s.product_id →
      parseUint16 s.product_id = none ∧
      openDevice env s = .halt (.exited 1)
        { s with trace := s.trace ++
            [.newContext, .fatal "Couldn't convert Product ID to int"] }) ∧
    ValidHexId "f505" ∧ parseUint16 "f505" = some 0xF505 ∧
    (init noFlags).product_id = "f505" := by
  refine ⟨?_, ?_, by decide, by decide, rfl⟩
  · intro hv
    have hp : parseUint16 s.product_id = some (hexValue s.product_id.toList) :=
      (parseUint16_eq_some _ _).mpr ⟨hv, rfl⟩
    refine ⟨hp, ?_⟩
    unfold openDevice
    simp only [State.emit, hp]
    cases env.openDev 0x3554 (hexValue s.product_id.toList) with
    | error =>
      exact ⟨_, by simp [logFatal, Step.state, State.emit], Or.inr rfl⟩
    | notFound => exact ⟨.closeContext, by simp [Step.state], Or.inl rfl⟩
    | device => exact ⟨.closeContext, by simp [Step.state], Or.inl rfl⟩
  · intro hv
    have hp := parseUint16_eq_none _ hv
    refine ⟨hp, ?_⟩
    unfold openDevice
    simp [State.emit, hp, logFatal]

/-- Witness of `openDevice_product_id`: the product IDs "F506" (accepted) and
"0xf505" (rejected for its prefix). -/
theorem openDevice_product_id_witness :
    (parseUint16 "F506" = some (hexValue "F506".toList) ∧
      ∃ last, (openDevice (usbAllOk [0] 17)
          { stateWith 1000 0 "" with product_id := "F506" }).state.trace
          = [.newContext, .openDeviceWithVIDPID 0x3554 (hexValue "F506".toList), last] ∧
        (last = .closeContext ∨ last = .fatal
          ("Couldn't open device with VID 3554 and PID " ++ hexOfString "F506"))) ∧
    (parseUint16 "0xf505" = none ∧
      openDevice (usbAllOk [0] 17) { stateWith 1000 0 "" with product_id := "0xf505" }
        = .halt (.exited 1)
          { stateWith 1000 0 "" with
            product_id := "0xf505"
            trace := [.newContext, .fatal "Couldn't convert Product ID to int"] }) :=
  ⟨(openDevice_product_id (usbAllOk [0] 17)
      { stateWith 1000 0 "" with product_id := "F506" }).1 (by decide),
   (openDevice_product_id (usbAllOk [0] 17)
      { stateWith 1000 0 "" with product_id := "0xf505" }).2.1 (by decide)⟩

/-- Some product IDs and what `strconv.ParseUint(s, 16, 16)` makes of them. -/
theorem parseUint16_examples :
    parseUint16 "f505" = some 0xF505 ∧ parseUint16 "F505" = some 0xF505 ∧
    parseUint16 "0000f505" = some 0xF505 ∧ parseUint16 "ffff" = some 0xFFFF ∧
    parseUint16 "" = none ∧ parseUint16 "10000" = none ∧ parseUint16 "0xf505" = none ∧
    parseUint16 "+f505" = none ∧ parseUint16 "f5_05" = none ∧ parseUint16 "g505" = none := by
  decide

/-! ## The tables as data -/

theorem mem_supportedSettings (x : Setting) (d : List Nat) (h : x.payload = some d) :
    x ∈ supportedSettings := by
  cases x <;> simp only [Setting.payload, motionSyncData, pollingRateData, debounceData] at h <;>
    split_ifs at h <;> simp_all [supportedSettings]

theorem payload_injective_on_supported :
    ∀ x ∈ supportedSettings, ∀ y ∈ supportedSettings, x.payload = y.payload → x = y := by
  decide

/-- C15: a payload identifies its kind and value.  Two settings (kind and value)
for which the setters select the same 17-byte payload are the same setting, so
within a kind distinct supported values have distinct payloads and payloads of
different kinds differ; the settings with a payload are the 14 table entries,
whose payloads are pairwise distinct. -/
theorem payload_identifies_setting (x y : Setting) (d : List Nat)
    (hx : x.payload = some d) (hy : y.payload = some d) :
    x = y ∧ x ∈ supportedSettings ∧ supportedSettings.length = 14 ∧
    (supportedSettings.map Setting.payload).Nodup ∧
    (∀ z ∈ supportedSettings, (z.payload).isSome = true) := by
  have mx := mem_supportedSettings x d hx
  have my := mem_supportedSettings y d hy
  exact ⟨payload_injective_on_supported x mx y my (hx.trans hy.symm), mx, by decide, by decide,
    by decide⟩

/-- Witness of `payload_identifies_setting`: the debounce 8 entry, which shares
its code pair 08 4d with the 125 Hz entry and still differs from it. -/
theorem payload_identifies_setting_witness :
    Setting.debounce 8 = Setting.debounce 8 ∧ Setting.debounce 8 ∈ supportedSettings ∧
    supportedSettings.length = 14 ∧
    (supportedSettings.map Setting.payload).Nodup ∧
    (∀ z ∈ supportedSettings, (z.payload).isSome = true) :=
  payload_identifies_setting (.debounce 8) (.debounce 8) (specDebouncePayload 0x08 0x4d)
    (by decide) (by decide)

/-- Distinct values, distinct payloads: some instances. -/
theorem payload_distinct_examples :
    pollingRateData 125 ≠ pollingRateData 250 ∧ debounceData 15 ≠ debounceData 20 ∧
    motionSyncData "on" ≠ motionSyncData "off" ∧ pollingRateData 125 ≠ debounceData 8 ∧
    debounceData 1 ≠ motionSyncData "on" := by
  decide

/-- C17: every payload of the three tables follows one checksum rule: the bytes
at positions 6 and 7, at 8 and 9, and at 10 and 11 each add up to 0x55, so the
second byte of each pair is 0x55 minus the first, and the sum of all 17 bytes
is 0x55 modulo 256. -/
theorem payload_checksum (x : Setting) (d : List Nat) (h : x.payload = some d) :
    d.getD 6 0 + d.getD 7 0 = 0x55 ∧ d.getD 8 0 + d.getD 9 0 = 0x55 ∧
    d.getD 10 0 + d.getD 11 0 = 0x55 ∧
    d.getD 7 0 = 0x55 - d.getD 6 0 ∧ d.getD 9 0 = 0x55 - d.getD 8 0 ∧
    d.getD 11 0 = 0x55 - d.getD 10 0 ∧
    d.length = 17 ∧ d.sum % 256 = 0x55 := by
  cases x <;> simp only [Setting.payload, motionSyncData, pollingRateData, debounceData] at h <;>
    split_ifs at h <;> (cases h; decide)

/-- Witness of `payload_checksum`: the 125 Hz entry, 08 + 4d = 55. -/
theorem payload_checksum_witness :
    (specPollingRatePayload 0x08 0x4d).getD 6 0 + (specPollingRatePayload 0x08 0x4d).getD 7 0
      = 0x55 ∧
    (specPollingRatePayload 0x08 0x4d).getD 8 0 + (specPollingRatePayload 0x08 0x4d).getD 9 0
      = 0x55 ∧
    (specPollingRatePayload 0x08 0x4d).getD 10 0 + (specPollingRatePayload 0x08 0x4d).getD 11 0
      = 0x55 ∧
    (specPollingRatePayload 0x08 0x4d).getD 7 0
      = 0x55 - (specPollingRatePayload 0x08 0x4d).getD 6 0 ∧
    (specPollingRatePayload 0x08 0x4d).getD 9 0
      = 0x55 - (specPollingRatePayload 0x08 0x4d).getD 8 0 ∧
    (specPollingRatePayload 0x08 0x4d).getD 11 0
      = 0x55 - (specPollingRatePayload 0x08 0x4d).getD 10 0 ∧
    (specPollingRatePayload 0x08 0x4d).length = 17 ∧
    (specPollingRatePayload 0x08 0x4d).sum % 256 = 0x55 :=
  payload_checksum (.pollingRate 125) (specPollingRatePayload 0x08 0x4d) (by decide)

theorem getElem?_eq_of_take_drop (a b : List Nat) (h1 : a.take 6 = b.take 6)
    (h2 : a.drop 8 = b.drop 8) (i : Nat) (h6 : i ≠ 6) (h7 : i ≠ 7) : a[i]? = b[i]? := by
  by_cases hlt : i < 6
  · rw [← List.getElem?_take_of_lt hlt, h1, List.getElem?_take_of_lt hlt]
  · have e : i = 8 + (i - 8) := by omega
    rw [e, ← List.getElem?_drop, ← List.getElem?_drop, h2]

/-- C18: debounce and motion sync share one report.  For every supported debounce
value the payload equals the motion-sync "on" payload everywhere except at
bytes 6 and 7, where it differs; so it carries 01 54 at bytes 8 and 9, the
motion-sync "on" field, not the "off" field 00 55.  Both motion-sync payloads
carry 00 55 at bytes 6 and 7, and no debounce payload has 00 at byte 6. -/
theorem debounce_shares_motion_sync_report (v : Int) (d : List Nat)
    (h : debounceData v = some d) :
    ∃ msOn msOff, motionSyncData "on" = some msOn ∧ motionSyncData "off" = some msOff ∧
      (∀ i, i ≠ 6 → i ≠ 7 → d[i]? = msOn[i]?) ∧ d[6]? ≠ msOn[6]? ∧ d[7]? ≠ msOn[7]? ∧
      d[8]? = some 0x01 ∧ d[9]? = some 0x54 ∧ d[8]? ≠ msOff[8]? ∧ d[9]? ≠ msOff[9]? ∧
      msOn[6]? = some 0x00 ∧ msOn[7]? = some 0x55 ∧
      msOff[6]? = some 0x00 ∧ msOff[7]? = some 0x55 ∧
      (∀ w p, debounceData w = some p → p[6]? ≠ some 0x00) := by
  refine ⟨specMotionSyncPayload 0x01 0x54, specMotionSyncPayload 0x00 0x55, by decide, by decide,
    ?_, ?_, ?_, ?_, ?_, ?_, ?_, by decide, by decide, by decide, by decide,
    fun w p hw => (debounceData_bytes w p hw).2⟩
  · apply getElem?_eq_of_take_drop <;>
      (simp only [debounceData] at h; split_ifs at h <;> (cases h; decide))
  all_goals (simp only [debounceData] at h; split_ifs at h <;> (cases h; decide))

/-- Witness of `debounce_shares_motion_sync_report`: debounce 20, code 0x14. -/
theorem debounce_shares_motion_sync_report_witness :
    ∃ msOn msOff, motionSyncData "on" = some msOn ∧ motionSyncData "off" = some msOff ∧
      (∀ i, i ≠ 6 → i ≠ 7 → (specDebouncePayload 0x14 0x41)[i]? = msOn[i]?) ∧
      (specDebouncePayload 0x14 0x41)[6]? ≠ msOn[6]? ∧
      (specDebouncePayload 0x14 0x41)[7]? ≠ msOn[7]? ∧
      (specDebouncePayload 0x14 0x41)[8]? = some 0x01 ∧
      (specDebouncePayload 0x14 0x41)[9]? = some 0x54 ∧
      (specDebouncePayload 0x14 0x41)[8]? ≠ msOff[8]? ∧
      (specDebouncePayload 0x14 0x41)[9]? ≠ msOff[9]? ∧
      msOn[6]? = some 0x00 ∧ msOn[7]? = some 0x55 ∧
      msOff[6]? = some 0x00 ∧ msOff[7]? = some 0x55 ∧
      (∀ w p, debounceData w = some p → p[6]? ≠ some 0x00) :=
  debounce_shares_motion_sync_report 20 (specDebouncePayload 0x14 0x41) (by decide)

/-! ## The `default` case of the setters -/

@[simp] theorem fatals_nil : fatals [] = [] := rfl

@[simp] theorem fatals_append (a b : List Event) : fatals (a ++ b) = fatals a ++ fatals b := by
  simp [fatals]

@[simp] theorem fatals_cons (e : Event) (t : List Event) :
    fatals (e :: t) = e.fatalMessage.toList ++ fatals t := by
  cases h : e.fatalMessage <;> simp [fatals, List.filterMap_cons, h]

theorem fatals_map_claimInterface (l : List Nat) :
    fatals (l.map fun n => Event.claimInterface n 0) = [] := by
  induction l with
  | nil => rfl
  | cons a l ih => simp [ih, Event.fatalMessage]

theorem fatals_map_closeInterface (l : List Nat) :
    fatals (l.map Event.closeInterface) = [] := by
  induction l with
  | nil => rfl
  | cons a l ih => simp [ih, Event.fatalMessage]

theorem fatals_setupTrace (env : Usb) (pid cfg : Nat) : fatals (setupTrace env pid cfg) = [] := by
  simp only [setupTrace, fatals_append, fatals_map_claimInterface]
  rfl

theorem fatals_cleanupTrace (env : Usb) : fatals (cleanupTrace env) = [] := by
  simp only [cleanupTrace, fatals_append, fatals_map_closeInterface]
  rfl

theorem fatals_of_settingEvents (t : List Event)
    (h : ∀ e ∈ t, Event.isSettingEvent e = true) :
    ∀ m ∈ fatals t, m = "Error sending control" := by
  intro m hm
  simp only [fatals, List.mem_filterMap] at hm
  obtain ⟨e, he, hem⟩ := hm
  have := h e he
  cases e <;> simp_all [Event.isSettingEvent, Event.fatalMessage]

theorem claimInterfacesForConfig_fail_fatals (env : Usb) (l : List Nat) (s : State)
    (h : ¬ ∀ i ∈ l, env.claimOk i = true) :
    ∃ s1, claimInterfacesForConfig env l s = .halt (.exited 1) s1 ∧
      fatals s1.trace = fatals s.trace ++ ["Failed to obtain interface"] := by
  induction l generalizing s with
  | nil => simp at h
  | cons num rest ih =>
    by_cases h1 : env.claimOk num = true
    · have h2 : ¬ ∀ i ∈ rest, env.claimOk i = true := by
        intro hall
        apply h
        intro i hi
        rcases List.mem_cons.mp hi with rfl | hi
        · exact h1
        · exact hall i hi
      obtain ⟨s1, e1, t1⟩ := ih
        { (s.emit (.claimInterface num 0)) with
          interfaceArray := (s.emit (.claimInterface num 0)).interfaceArray ++ [num] } h2
      refine ⟨s1, by simp [claimInterfacesForConfig, h1, e1], ?_⟩
      rw [t1]
      simp [State.emit, Event.fatalMessage]
    · exact ⟨(s.emit (.claimInterface num 0)).emit (.fatal "Failed to obtain interface"),
        by simp [claimInterfacesForConfig, h1, logFatal],
        by simp [State.emit, Event.fatalMessage]⟩

/-- Every message a run logs with `log.Fatal*` is one of the session messages. -/
theorem run_fatals (f : Flags) (env : Usb) :
    ∀ m ∈ fatals (run f env).trace, m ∈ sessionFatalMessages (init f) := by
  by_cases hsetup : ∃ pid cfg, SetupOk env f pid cfg
  · obtain ⟨pid, cfg, hs⟩ := hsetup
    obtain ⟨t, q, c | c⟩ := run_of_setupOk_cases env f pid cfg hs
    all_goals
      rw [c]
      intro m hm
      simp only [fatals_append, fatals_setupTrace, fatals_cleanupTrace, List.nil_append,
        List.append_nil] at hm
      rw [fatals_of_settingEvents t q m hm]
      simp [sessionFatalMessages]
  have hrun : run f env = match main env (init f) with
      | .cont _ s => { trace := s.trace, outcome := .returned }
      | .halt o s => { trace := s.trace, outcome := o } := rfl
  have hinit : (init f).trace = [] := rfl
  have hdef : (init f).deferred = [] := rfl
  by_cases hg : (init f).nflag > 1 ∧ (init f).product_id = "f505"
  · rw [hrun]
    unfold main mainBody
    rw [if_pos hg]
    simp [State.emit, hinit, Event.fatalMessage]
  cases hp : parseUint16 (init f).product_id with
  | none =>
    rw [hrun]
    unfold main mainBody
    rw [if_neg hg]
    simp [openDevice, hp, logFatal, State.emit, Step.bind, hinit, Event.fatalMessage,
      sessionFatalMessages]
  | some pid =>
    cases ho : env.openDev 0x3554 pid with
    | error =>
      rw [hrun]
      unfold main mainBody
      rw [if_neg hg]
      simp [openDevice, hp, ho, logFatal, State.emit, Step.bind, hinit, Event.fatalMessage,
        sessionFatalMessages]
    | notFound =>
      rw [hrun]
      unfold main mainBody
      rw [if_neg hg]
      simp [openDevice, hp, ho, State.emit, Step.bind, hinit, hdef, Event.fatalMessage,
        State.defer, State.runDeferred]
    | device =>
      by_cases ha : env.autoDetachOk = true
      swap
      · rw [hrun]
        unfold main mainBody
        rw [if_neg hg]
        simp [openDevice, hp, ho, ha, logFatal, State.emit, Step.bind, hinit,
          Event.fatalMessage, State.defer, sessionFatalMessages]
      cases hc : env.activeConfig with
      | none =>
        rw [hrun]
        unfold main mainBody
        rw [if_neg hg]
        simp [openDevice, hp, ho, ha, hc, getActiveConfig, logFatal, State.emit, Step.bind,
          hinit, Event.fatalMessage, State.defer, sessionFatalMessages]
      | some cfg =>
        by_cases hk : env.configOk cfg = true
        swap
        · rw [hrun]
          unfold main mainBody
          rw [if_neg hg]
          simp [openDevice, hp, ho, ha, hc, hk, getActiveConfig, logFatal, State.emit,
            Step.bind, hinit, Event.fatalMessage, State.defer, sessionFatalMessages]
        by_cases hi : ∀ i ∈ env.interfaces, env.claimOk i = true
        · exact absurd ⟨pid, cfg, hg, hp, ho, ha, hc, hk, hi⟩ hsetup
        · rw [hrun]
          unfold main mainBody
          rw [if_neg hg]
          simp only [openDevice, hp, ho, ha, hc, hk, getActiveConfig, State.emit, Step.bind,
            State.defer]
          simp only [Bool.true_eq_false, if_false, if_true, Step.bind]
          obtain ⟨s1, e1, t1⟩ := claimInterfacesForConfig_fail_fatals env env.interfaces
            { interfaceArray := (init f).interfaceArray, polling_rate := (init f).polling_rate,
              product_id := (init f).product_id, motion_sync := (init f).motion_sync,
              debounce := (init f).debounce, dev := true, nflag := (init f).nflag,
              trace := (init f).trace ++ [Event.newContext] ++
                [Event.openDeviceWithVIDPID 0x3554 pid] ++ [Event.closeContext] ++
                [Event.setAutoDetach true] ++ [Event.activeConfigNum] ++ [Event.config cfg],
              deferred := Event.closeConfig :: Event.closeDevice :: (init f).deferred } hi
          rw [e1]
          simp only [Step.bind]
          rw [t1]
          simp [hinit, Event.fatalMessage, sessionFatalMessages]

theorem firstChar_append (a b : String) (c : Char) (h : firstChar a = some c) :
    firstChar (a ++ b) = some c := by
  simp only [firstChar, String.data_append, List.head?_append] at h ⊢
  rw [h]
  rfl

theorem firstChar_unexpected (k : Kind) (s : State) : firstChar (k.unexpected s) = some 'U' := by
  cases k <;> exact firstChar_append _ _ _ (by decide)

theorem firstChar_sessionFatalMessages (s : State) :
    ∀ m ∈ sessionFatalMessages s, firstChar m ≠ some 'U' := by
  intro m hm
  simp only [sessionFatalMessages, List.mem_cons, List.mem_singleton, List.not_mem_nil,
    or_false] at hm
  rcases hm with rfl | rfl | rfl | rfl | rfl | rfl | rfl
  · decide
  · rw [firstChar_append _ _ 'C' (by decide)]
    decide
  · decide
  · decide
  · decide
  · decide
  · decide

theorem setter_default_branch (k : Kind) (env : Usb) (s : State) (h : k.payload s = none) :
    k.setter env s = logFatal (k.unexpected s) s := by
  cases k <;> simp only [Kind.payload] at h <;>
    simp [Kind.setter, setMotionSync, setPollingRate, setDebounce, h, Kind.unexpected]

/-- C16: the `default` case of the setters is unreachable from `main`.  For every
kind and flag value the validator returns true exactly when the setter's
`switch` has a case for the value; a setter called on a value without a case
ends in its "Unexpected ..." fatal message, and called on a valid value it
sends the table entry; the three blocks of `main` call a setter only for a
value with a table entry; and no run, whatever the flags and the USB layer,
logs an "Unexpected ..." message. -/
theorem unexpected_branch_unreachable (k : Kind) (f : Flags) (env : Usb) (s : State)
    (hd : s.dev = true) :
    k.isValid s = (k.payload s).isSome ∧
    (k.isValid s = false → k.setter env s = logFatal (k.unexpected s) s) ∧
    (k.isValid s = true →
      ∃ d, k.payload s = some d ∧ k.setter env s = sendAndReport env d (k.success s) s) ∧
    settingBlocks env s = applySettings env s ∧
    Event.fatal (k.unexpected (init f)) ∉ (run f env).trace ∧
    k.unexpected (init f) ∉ fatals (run f env).trace := by
  have hnot : k.unexpected (init f) ∉ fatals (run f env).trace := by
    intro hm
    exact firstChar_sessionFatalMessages _ _ (run_fatals f env _ hm) (firstChar_unexpected k _)
  refine ⟨isValid_eq_isSome k s, ?_, ?_, settingBlocks_eq env s hd, ?_, hnot⟩
  · intro hv
    exact setter_default_branch k env s (payload_none_of_invalid k s hv)
  · intro hv
    rw [isValid_eq_isSome] at hv
    obtain ⟨d, hdd⟩ := Option.isSome_iff_exists.mp hv
    exact ⟨d, hdd, setter_eq k env s d hd hdd⟩
  · intro hmem
    apply hnot
    simp only [fatals, List.mem_filterMap]
    exact ⟨_, hmem, rfl⟩

/-- Witness of `unexpected_branch_unreachable`: polling rate 1000 after set-up,
in the run `-pr=1000`. -/
theorem unexpected_branch_unreachable_witness :
    Kind.pollingRate.isValid (stateWith 1000 0 "")
      = (Kind.pollingRate.payload (stateWith 1000 0 "")).isSome ∧
    (Kind.pollingRate.isValid (stateWith 1000 0 "") = false →
      Kind.pollingRate.setter (usbAllOk [0] 17) (stateWith 1000 0 "")
        = logFatal (Kind.pollingRate.unexpected (stateWith 1000 0 "")) (stateWith 1000 0 "")) ∧
    (Kind.pollingRate.isValid (stateWith 1000 0 "") = true →
      ∃ d, Kind.pollingRate.payload (stateWith 1000 0 "") = some d ∧
        Kind.pollingRate.setter (usbAllOk [0] 17) (stateWith 1000 0 "")
          = sendAndReport (usbAllOk [0] 17) d (Kind.pollingRate.success (stateWith 1000 0 ""))
              (stateWith 1000 0 "")) ∧
    settingBlocks (usbAllOk [0] 17) (stateWith 1000 0 "")
      = applySettings (usbAllOk [0] 17) (stateWith 1000 0 "") ∧
    Event.fatal (Kind.pollingRate.unexpected
        (init { pr := some 1000, db := none, pid := none, ms := none })) ∉
      (run { pr := some 1000, db := none, pid := none, ms := none } (usbAllOk [0] 17)).trace ∧
    Kind.pollingRate.unexpected (init { pr := some 1000, db := none, pid := none, ms := none }) ∉
      fatals (run { pr := some 1000, db := none, pid := none, ms := none }
        (usbAllOk [0] 17)).trace :=
  unexpected_branch_unreachable .pollingRate
    { pr := some 1000, db := none, pid := none, ms := none } (usbAllOk [0] 17)
    (stateWith 1000 0 "") rfl

/-- The `default` case of a setter called on its own: `setDebounce` with debounce 3. -/
theorem setDebounce_unexpected_3 :
    setDebounce (usbAllOk [0] 17) (stateWith 0 3 "")
      = .halt (.exited 1)
          { stateWith 0 3 "" with trace := [.fatal "Unexpected debounce setting: 3"] } := by
  rfl

end Dragonfly
